import Mathlib

/-!
# Thermostat_API: the control decision loop

A shallow embedding of `src/Thermostat_API.h` and `src/Thermostat_API.cpp`, at two levels of
arithmetic.

## The exact model (`Thermostat_API`)

* The three `float` members (`m_temp`, `m_temp_margin`, `m_temp_setpoint`) are exact
  rationals: `+`, `-`, `<`, `≤` are the exact operations. Rounding, infinities and NaN are
  outside this model. It carries the properties that are stated over exact arithmetic or that
  do not turn on rounding and NaN.
* The three C enums are closed inductive types.
* One iteration of the body of the `while (1)` loop of `therm_controller` (the `sleep_for`
  apart) is the function `therm_controller_tick`; one iteration of the loop of
  `temp_UDP_listener` (one `recvfrom` return) is `temp_UDP_listener_recv`. Each of them, and
  each setter, is one atomic step on the object: interleavings inside a step are outside the
  model.
* The four actuator members only write `m_therm_status` (the hardware part is a TODO in the
  source). The ghost field `actuator_calls` records every invocation of one of them, oldest
  first; no modelled function reads it.
* The socket, address and thread-handle members are read by no modelled function and are left
  out.

## The binary32 model (`binary32.Thermostat_API`)

* The three `float` members are IEEE 754 binary32 values (`binary32.float`): finite values,
  the two infinities and NaN. A sample is any such value, as the listener stores whatever four
  bytes arrive.
* `setpoint + margin` and `setpoint - margin` are the binary32 sum and difference, rounded to
  nearest with ties to even (each operation rounded to `float`, as on targets that evaluate
  `float` expressions in `float`); `<`, `<=`, `>`, `>=` are the float comparisons, false when
  an operand is NaN.
* The functions are the same members as in the exact model, with this arithmetic. The
  properties of the start and stop thresholds of one tick are settled here, where rounding and
  NaN decide them.
-/

set_option linter.unnecessarySeqFocus false
set_option maxRecDepth 8000

/-- Thermostat errors, `enum therm_err`. -/
inductive therm_err where
  | therm_err_none
  | therm_err_no_temp_data
  deriving DecidableEq, Repr

/-- Thermostat modes of operation, `enum therm_mode`. -/
inductive therm_mode where
  | therm_mode_off
  | therm_mode_heat
  | therm_mode_cool
  | therm_mode_auto
  deriving DecidableEq, Repr

/-- Status of the temperature controller, `enum therm_status`. -/
inductive therm_status where
  | therm_status_inactive
  | therm_status_heating
  | therm_status_cooling
  deriving DecidableEq, Repr

/-- Names of the four private actuator members, as recorded in the ghost call log. -/
inductive actuator_call where
  | start_heating
  | stop_heating
  | start_cooling
  | stop_cooling
  deriving DecidableEq, Repr

open therm_err therm_mode therm_status

/-- Member variables of `class Thermostat_API`, with the ghost log `actuator_calls`. -/
structure Thermostat_API where
  m_therm_mode : therm_mode
  m_therm_status : therm_status
  m_temp_port : Int
  m_temp : ℚ
  m_temp_margin : ℚ
  m_temp_setpoint : ℚ
  m_is_temp_valid : Bool
  m_therm_cont_err : therm_err
  actuator_calls : List actuator_call
  deriving DecidableEq

namespace Thermostat_API

/-- Constructor `Thermostat_API::Thermostat_API()`: the member initialiser list. The thread it
creates runs `therm_controller`, whose iterations are the `tick` events below. -/
def construct : Thermostat_API :=
  { m_therm_status := therm_status_inactive
    m_therm_mode := therm_mode_off
    m_temp_port := 1234
    m_temp := 0
    m_temp_margin := 1
    m_temp_setpoint := 72
    m_is_temp_valid := false
    m_therm_cont_err := therm_err_no_temp_data
    actuator_calls := [] }

/-- Member `start_heating`. -/
def start_heating (s : Thermostat_API) : Thermostat_API :=
  { s with m_therm_status := therm_status_heating
           actuator_calls := s.actuator_calls ++ [actuator_call.start_heating] }

/-- Member `stop_heating`. -/
def stop_heating (s : Thermostat_API) : Thermostat_API :=
  { s with m_therm_status := therm_status_inactive
           actuator_calls := s.actuator_calls ++ [actuator_call.stop_heating] }

/-- Member `start_cooling`. -/
def start_cooling (s : Thermostat_API) : Thermostat_API :=
  { s with m_therm_status := therm_status_cooling
           actuator_calls := s.actuator_calls ++ [actuator_call.start_cooling] }

/-- Member `stop_cooling`. -/
def stop_cooling (s : Thermostat_API) : Thermostat_API :=
  { s with m_therm_status := therm_status_inactive
           actuator_calls := s.actuator_calls ++ [actuator_call.stop_cooling] }

/-- Member `get_temp(float& temp)`: the returned error and the value of the reference
parameter after the call (`temp` is its value before the call). -/
def get_temp (s : Thermostat_API) (temp : ℚ) : therm_err × ℚ :=
  if s.m_is_temp_valid then (therm_err_none, s.m_temp)
  else (therm_err_no_temp_data, temp)

/-- Member `set_temp_margin`. -/
def set_temp_margin (s : Thermostat_API) (temp_margin : ℚ) : Thermostat_API :=
  { s with m_temp_margin := temp_margin }

/-- Member `get_temp_margin`. -/
def get_temp_margin (s : Thermostat_API) : ℚ := s.m_temp_margin

/-- Member `set_temp_setpoint`. -/
def set_temp_setpoint (s : Thermostat_API) (temp_setpoint : ℚ) : Thermostat_API :=
  { s with m_temp_setpoint := temp_setpoint }

/-- Member `get_temp_setpoint`. -/
def get_temp_setpoint (s : Thermostat_API) : ℚ := s.m_temp_setpoint

/-- Member `set_therm_mode`. -/
def set_therm_mode (s : Thermostat_API) (setting : therm_mode) : Thermostat_API :=
  { s with m_therm_mode := setting }

/-- Member `get_therm_mode`. -/
def get_therm_mode (s : Thermostat_API) : therm_mode := s.m_therm_mode

/-- Member `get_therm_status`. -/
def get_therm_status (s : Thermostat_API) : therm_status := s.m_therm_status

/-- Member `get_therm_cont_err`. -/
def get_therm_cont_err (s : Thermostat_API) : therm_err := s.m_therm_cont_err

/-- One iteration of the loop body of `therm_controller` (lines 27-84). -/
def therm_controller_tick (p_this : Thermostat_API) : Thermostat_API :=
  let r := p_this.get_temp 0
  let current_temp := r.2
  if therm_err_no_temp_data = r.1 then
    { p_this with m_therm_cont_err := therm_err_no_temp_data }
  else
    if therm_mode_off = p_this.get_therm_mode then
      let p1 :=
        if therm_status_heating = p_this.get_therm_status then p_this.stop_heating
        else p_this
      if therm_status_cooling = p1.get_therm_status then p1.stop_cooling
      else p1
    else if (therm_mode_cool = p_this.get_therm_mode
              ∨ therm_mode_auto = p_this.get_therm_mode)
            ∧ current_temp > p_this.get_temp_setpoint + p_this.get_temp_margin
            ∧ therm_status_cooling ≠ p_this.get_therm_status then
      p_this.start_cooling
    else if (therm_mode_heat = p_this.get_therm_mode
              ∨ therm_mode_auto = p_this.get_therm_mode)
            ∧ current_temp < p_this.get_temp_setpoint - p_this.get_temp_margin
            ∧ therm_status_heating ≠ p_this.get_therm_status then
      p_this.start_heating
    else if therm_status_heating = p_this.get_therm_status
            ∧ current_temp ≥ p_this.get_temp_setpoint then
      p_this.stop_heating
    else if therm_status_cooling = p_this.get_therm_status
            ∧ current_temp ≤ p_this.get_temp_setpoint then
      p_this.stop_cooling
    else
      p_this

/-- The loop of `therm_controller` run for `n` iterations with nothing else in between. -/
def therm_controller (n : Nat) (p_this : Thermostat_API) : Thermostat_API :=
  therm_controller_tick^[n] p_this

/-- One iteration of the loop body of `temp_UDP_listener`: `value` is what `recvfrom`
delivered. -/
def temp_UDP_listener_recv (p_this : Thermostat_API) (value : ℚ) : Thermostat_API :=
  { p_this with m_temp := value, m_is_temp_valid := true }

/-- Steps that can be taken on the object once it is constructed: a call of a public setter,
a sample accepted by the listener thread, an iteration of the controller thread. -/
inductive event where
  | set_temp_margin (temp_margin : ℚ)
  | set_temp_setpoint (temp_setpoint : ℚ)
  | set_therm_mode (setting : therm_mode)
  | sample (value : ℚ)
  | tick
  deriving DecidableEq

/-- Effect of one step. -/
def step (s : Thermostat_API) : event → Thermostat_API
  | event.set_temp_margin v => s.set_temp_margin v
  | event.set_temp_setpoint v => s.set_temp_setpoint v
  | event.set_therm_mode m => s.set_therm_mode m
  | event.sample v => s.temp_UDP_listener_recv v
  | event.tick => s.therm_controller_tick

/-- Effect of a sequence of steps, first step first. -/
def run (s : Thermostat_API) (evs : List event) : Thermostat_API :=
  evs.foldl step s

/-- Whether a step is an accepted sample. -/
def event.is_sample : event → Bool
  | event.sample _ => true
  | _ => false

/-- Whether a step leaves the mode at Off: every step but a `set_therm_mode` to another
mode. -/
def event.keeps_off : event → Bool
  | event.set_therm_mode m => decide (m = therm_mode_off)
  | _ => true

/-- The decision rules of the specification (section 4.2, step 2), first match wins: the
status that the rule list prescribes, with the sum, the difference and the comparisons taken
on exact values. -/
def spec_rules (mode : therm_mode) (status : therm_status)
    (setpoint margin temp : ℚ) : therm_status :=
  if mode = therm_mode_off then therm_status_inactive
  else if (mode = therm_mode_cool ∨ mode = therm_mode_auto)
      ∧ temp > setpoint + margin ∧ status ≠ therm_status_cooling then therm_status_cooling
  else if (mode = therm_mode_heat ∨ mode = therm_mode_auto)
      ∧ temp < setpoint - margin ∧ status ≠ therm_status_heating then therm_status_heating
  else if status = therm_status_heating ∧ temp ≥ setpoint then therm_status_inactive
  else if status = therm_status_cooling ∧ temp ≤ setpoint then therm_status_inactive
  else status

/-- Scenario of the specification: setpoint 70, margin 2, mode Heat, status Inactive, with
the sample exactly at setpoint - margin. -/
def heat_boundary : Thermostat_API :=
  { construct with
    m_therm_mode := therm_mode_heat, m_temp_setpoint := 70, m_temp_margin := 2,
    m_temp := 68, m_is_temp_valid := true }

/-- Heating in Heat mode (setpoint 70, margin 2) with the sample exactly at the setpoint. -/
def heating_at_setpoint : Thermostat_API :=
  { construct with
    m_therm_mode := therm_mode_heat, m_therm_status := therm_status_heating,
    m_temp_setpoint := 70, m_temp_margin := 2, m_temp := 70, m_is_temp_valid := true }

/-- Scenario of the specification: setpoint 60, margin 1, mode Auto, status Heating, sample
69. -/
def auto_heating_hot : Thermostat_API :=
  { construct with
    m_therm_mode := therm_mode_auto, m_therm_status := therm_status_heating,
    m_temp_setpoint := 60, m_temp_margin := 1, m_temp := 69, m_is_temp_valid := true }

/-- Cooling in Cool mode (setpoint 70, margin 2) with the sample inside the band, at 71. -/
def cooling_in_band : Thermostat_API :=
  { construct with
    m_therm_mode := therm_mode_cool, m_therm_status := therm_status_cooling,
    m_temp_setpoint := 70, m_temp_margin := 2, m_temp := 71, m_is_temp_valid := true }

/-- Status left over from another mode: Cooling in Heat mode (setpoint 70, margin 2) with the
sample at 60. -/
def leftover_cooling : Thermostat_API :=
  { construct with
    m_therm_mode := therm_mode_heat, m_therm_status := therm_status_cooling,
    m_temp_setpoint := 70, m_temp_margin := 2, m_temp := 60, m_is_temp_valid := true }

/-- State with no valid sample in which the status is Heating and the mode Cool. -/
def heating_no_sample : Thermostat_API :=
  { construct with
    m_therm_mode := therm_mode_cool, m_therm_status := therm_status_heating,
    m_therm_cont_err := therm_err_none }

/-- Invariant of the states in which no sample was accepted yet. -/
def no_sample_inv (s : Thermostat_API) : Prop :=
  s.m_is_temp_valid = false ∧ s.m_therm_cont_err = therm_err_no_temp_data ∧
    s.m_therm_status = therm_status_inactive

/-- Invariant of all reachable states: an active status implies a valid sample. -/
def active_valid_inv (s : Thermostat_API) : Prop :=
  s.m_therm_status ≠ therm_status_inactive → s.m_is_temp_valid = true

/-- Invariant kept while the mode stays Off once the status is Inactive. -/
def off_inactive_inv (s : Thermostat_API) : Prop :=
  s.m_therm_mode = therm_mode_off ∧ s.m_therm_status = therm_status_inactive

/-- History used as a witness: cooling is started in Cool mode, then the mode is set to
Off. -/
def cooling_then_off : List event :=
  [event.set_therm_mode therm_mode_cool, event.sample 100, event.tick,
    event.set_therm_mode therm_mode_off]

/-- Later steps used as a witness: samples, ticks and setting changes with the mode Off. -/
def off_steps : List event :=
  [event.sample 50, event.tick, event.set_temp_setpoint 80, event.sample 100, event.tick,
    event.set_therm_mode therm_mode_off, event.set_temp_margin 3, event.tick]

/-- History without any sample: setter calls and ticks only. -/
def settings_only : List event :=
  [event.set_therm_mode therm_mode_auto, event.tick, event.set_temp_setpoint 100,
    event.set_temp_margin (-5), event.tick, event.set_therm_mode therm_mode_heat, event.tick]

/-- History that reaches Heating: Heat mode, setpoint 70, margin 2, sample 67, one tick. -/
def heating_history : List event :=
  [event.set_temp_setpoint 70, event.set_temp_margin 2, event.set_therm_mode therm_mode_heat,
    event.sample 67, event.tick]

/-- Invariant of the states whose stored sample is valid and equal to `v`. -/
def sample_inv (v : ℚ) (s : Thermostat_API) : Prop :=
  s.m_is_temp_valid = true ∧ s.m_temp = v

/-- History with two accepted samples, 60 then 75, each followed by other steps. -/
def two_samples : List event :=
  [event.set_therm_mode therm_mode_auto, event.sample 60, event.tick, event.sample 75,
    event.tick, event.set_temp_margin 2, event.set_temp_setpoint 80, event.tick]

/-- Whether a step leaves the mode at `m`: every step but a `set_therm_mode` to another
mode. -/
def event.holds_mode (m : therm_mode) : event → Bool
  | event.set_therm_mode setting => decide (setting = m)
  | _ => true

/-- Invariant kept while the mode is held at Heat: the status is not Cooling. -/
def heat_gate_inv (s : Thermostat_API) : Prop :=
  s.m_therm_mode = therm_mode_heat ∧ s.m_therm_status ≠ therm_status_cooling

/-- Invariant kept while the mode is held at Cool: the status is not Heating. -/
def cool_gate_inv (s : Thermostat_API) : Prop :=
  s.m_therm_mode = therm_mode_cool ∧ s.m_therm_status ≠ therm_status_heating

/-- Steps taken with the mode held: samples, ticks, setpoint and margin changes, a negative
margin included. -/
def held_mode_steps : List event :=
  [event.sample 100, event.tick, event.set_temp_margin (-5), event.sample 40, event.tick,
    event.set_temp_setpoint 0, event.tick, event.sample (-30), event.tick]

/-- Inactive in Auto mode (setpoint 70, margin 2) with the sample on the upper edge of the
band, 72. -/
def auto_band_edge : Thermostat_API :=
  { construct with
    m_therm_mode := therm_mode_auto, m_temp_setpoint := 70, m_temp_margin := 2,
    m_temp := 72, m_is_temp_valid := true }

/-- Inactive in Heat mode (setpoint 70, margin 2) with the sample at 67. -/
def heat_cold : Thermostat_API :=
  { construct with
    m_therm_mode := therm_mode_heat, m_temp_setpoint := 70, m_temp_margin := 2,
    m_temp := 67, m_is_temp_valid := true }

/-- Inactive in Cool mode (setpoint 70, margin 2) with the sample at 73. -/
def cool_hot : Thermostat_API :=
  { construct with
    m_therm_mode := therm_mode_cool, m_temp_setpoint := 70, m_temp_margin := 2,
    m_temp := 73, m_is_temp_valid := true }

/-- Cooling in Cool mode (setpoint 70, margin 2) with the sample at the setpoint. -/
def cooling_at_setpoint : Thermostat_API :=
  { construct with
    m_therm_mode := therm_mode_cool, m_therm_status := therm_status_cooling,
    m_temp_setpoint := 70, m_temp_margin := 2, m_temp := 70, m_is_temp_valid := true }

/-- Status that each actuator member writes. -/
def call_status : actuator_call → therm_status
  | actuator_call.start_heating => therm_status_heating
  | actuator_call.stop_heating => therm_status_inactive
  | actuator_call.start_cooling => therm_status_cooling
  | actuator_call.stop_cooling => therm_status_inactive

/-- Actuator members that one tick invokes: what the tick adds to the call log. -/
def tick_calls (s : Thermostat_API) : List actuator_call :=
  s.therm_controller_tick.actuator_calls.drop s.actuator_calls.length

/-- History that leaves cooling running in Heat mode: cooling starts in Cool mode at 100, then
the mode is set to Heat. -/
def cool_then_heat : List event :=
  [event.set_therm_mode therm_mode_cool, event.sample 100, event.tick,
    event.set_therm_mode therm_mode_heat]

/-- History that leaves heating running in Cool mode: heating starts in Heat mode at 40, then
the mode is set to Cool. -/
def heat_then_cool : List event :=
  [event.set_therm_mode therm_mode_heat, event.sample 40, event.tick,
    event.set_therm_mode therm_mode_cool]

/-- History that stores a negative margin: mode Heat, setpoint 70, margin -5, sample 72. -/
def negative_margin_history : List event :=
  [event.set_therm_mode therm_mode_heat, event.set_temp_setpoint 70,
    event.set_temp_margin (-5), event.sample 72]

/-- Inputs of the tick after `negative_margin_history`; a tick does not write them. -/
def negative_margin_inv (s : Thermostat_API) : Prop :=
  s.m_is_temp_valid = true ∧ s.m_therm_mode = therm_mode_heat ∧ s.m_temp_setpoint = 70 ∧
    s.m_temp_margin = -5 ∧ s.m_temp = 72

end Thermostat_API

/-! ## The binary32 model: definitions -/

namespace binary32

/-- Values of the C type `float`, read as IEEE 754 binary32. `finite s m e` is the value
(-1)^s * m * 2^(e - 149): every finite binary32 value (zeros and subnormals included) has this
form with m < 2^24 and e < 254, not uniquely, and every such triple is a binary32 value. All
NaN bit patterns are the one value `nan`. -/
inductive float where
  | nan
  | inf (negative : Bool)
  | finite (negative : Bool) (m : Fin 16777216) (e : Fin 254)

/-- Finite value (-1)^negative * m * 2^(e - 149), for m < 2^24 and e < 254. -/
def f32 (negative : Bool) (m e : ℕ) : float :=
  float.finite negative ⟨m % 16777216, Nat.mod_lt _ (by decide)⟩
    ⟨e % 254, Nat.mod_lt _ (by decide)⟩

/-- Exact value of a finite float in units of 2^(-149); 0 for NaN and the infinities. -/
def float.units : float → ℤ
  | float.finite false m e => ((m.val * 2 ^ e.val : ℕ) : ℤ)
  | float.finite true m e => -((m.val * 2 ^ e.val : ℕ) : ℤ)
  | _ => 0

/-- Exact value of a finite float as a rational; 0 for NaN and the infinities. -/
def float.to_rat (a : float) : ℚ := a.units / 2 ^ 149

/-- Whether the value is a NaN. -/
def float.is_nan : float → Bool
  | float.nan => true
  | _ => false

/-- Whether the value is finite. -/
def float.is_finite : float → Bool
  | float.finite _ _ _ => true
  | _ => false

/-- Order key of a value that is not NaN: its value in units of 2^(-149), with 2^277 and
-2^277 standing for the infinities (every finite magnitude is below 2^277). -/
def float.key : float → Option ℤ
  | float.nan => none
  | float.inf false => some ((2 ^ 277 : ℕ) : ℤ)
  | float.inf true => some (-((2 ^ 277 : ℕ) : ℤ))
  | float.finite negative m e => some (float.finite negative m e).units

/-- C++ `a < b` on floats: false when an operand is NaN. -/
def float.lt (a b : float) : Bool :=
  match a.key, b.key with
  | some x, some y => decide (x < y)
  | _, _ => false

/-- C++ `a <= b` on floats: false when an operand is NaN. -/
def float.le (a b : float) : Bool :=
  match a.key, b.key with
  | some x, some y => decide (x ≤ y)
  | _, _ => false

/-- C++ `a > b` on floats. -/
def float.gt (a b : float) : Bool := b.lt a

/-- C++ `a >= b` on floats. -/
def float.ge (a b : float) : Bool := b.le a

/-- Floor of the binary logarithm, by halving (0 for 0 and 1); `fuel` bounds the number of
halvings and `n` itself is always enough. -/
def log2_fuel : ℕ → ℕ → ℕ
  | 0, _ => 0
  | fuel + 1, n => if n < 2 then 0 else log2_fuel fuel (n / 2) + 1

/-- Rounding of a magnitude (in units of 2^(-149)) to 24 significant bits, to nearest with
ties to even: the significand and the exponent of the result. -/
def round_nat (n : ℕ) : ℕ × ℕ :=
  let k := log2_fuel n n - 23
  let q := n / 2 ^ k
  let r := n % 2 ^ k
  let q1 :=
    if 2 * r < 2 ^ k then q
    else if 2 ^ k < 2 * r then q + 1
    else if q % 2 = 0 then q else q + 1
  if q1 = 16777216 then (8388608, k + 1) else (q1, k)

/-- Rounded result of an exact magnitude with a sign, an infinity on overflow. -/
def round_mag (negative : Bool) (n : ℕ) : float :=
  if (round_nat n).2 < 254 then f32 negative (round_nat n).1 (round_nat n).2
  else float.inf negative

/-- Rounded result of an exact value `z` in units of 2^(-149); `zero_negative` is the sign
given to an exact zero. -/
def round_int (zero_negative : Bool) (z : ℤ) : float :=
  round_mag (if z = 0 then zero_negative else decide (z < 0)) z.natAbs

/-- IEEE 754 addition in binary32, round to nearest even: C++ `a + b` on floats. -/
def float.add : float → float → float
  | float.nan, _ => float.nan
  | _, float.nan => float.nan
  | float.inf s, float.inf t => if s = t then float.inf s else float.nan
  | float.inf s, float.finite _ _ _ => float.inf s
  | float.finite _ _ _, float.inf t => float.inf t
  | float.finite s m e, float.finite t m2 e2 =>
    round_int (s && t) ((float.finite s m e).units + (float.finite t m2 e2).units)

/-- Sign change. -/
def float.neg : float → float
  | float.nan => float.nan
  | float.inf s => float.inf (!s)
  | float.finite s m e => float.finite (!s) m e

/-- IEEE 754 subtraction in binary32: C++ `a - b` on floats. -/
def float.sub (a b : float) : float := a.add b.neg

/-- Magnitudes (in units of 2^(-149)) of the finite binary32 values. -/
def representable (n : ℕ) : Prop :=
  ∃ m e : ℕ, m < 16777216 ∧ e < 254 ∧ n = m * 2 ^ e

/-- The literal `0.0f`. -/
def float.zero : float := f32 false 0 0


/-- Member variables of `class Thermostat_API`, the three `float` members as binary32
values. -/
structure Thermostat_API where
  m_therm_mode : therm_mode
  m_therm_status : therm_status
  m_temp_port : Int
  m_temp : float
  m_temp_margin : float
  m_temp_setpoint : float
  m_is_temp_valid : Bool
  m_therm_cont_err : therm_err

namespace Thermostat_API

/-- Constructor `Thermostat_API::Thermostat_API()`: 0.0f, 1.0f and 72.0f are exact. -/
def construct : Thermostat_API :=
  { m_therm_status := therm_status_inactive
    m_therm_mode := therm_mode_off
    m_temp_port := 1234
    m_temp := float.zero
    m_temp_margin := f32 false 1 149
    m_temp_setpoint := f32 false 72 149
    m_is_temp_valid := false
    m_therm_cont_err := therm_err_no_temp_data }

/-- Member `start_heating`. -/
def start_heating (s : Thermostat_API) : Thermostat_API :=
  { s with m_therm_status := therm_status_heating }

/-- Member `stop_heating`. -/
def stop_heating (s : Thermostat_API) : Thermostat_API :=
  { s with m_therm_status := therm_status_inactive }

/-- Member `start_cooling`. -/
def start_cooling (s : Thermostat_API) : Thermostat_API :=
  { s with m_therm_status := therm_status_cooling }

/-- Member `stop_cooling`. -/
def stop_cooling (s : Thermostat_API) : Thermostat_API :=
  { s with m_therm_status := therm_status_inactive }

/-- Member `get_temp(float& temp)`: the returned error and the value of the reference
parameter after the call. -/
def get_temp (s : Thermostat_API) (temp : float) : therm_err × float :=
  if s.m_is_temp_valid then (therm_err_none, s.m_temp)
  else (therm_err_no_temp_data, temp)

/-- Member `set_temp_margin`. -/
def set_temp_margin (s : Thermostat_API) (temp_margin : float) : Thermostat_API :=
  { s with m_temp_margin := temp_margin }

/-- Member `get_temp_margin`. -/
def get_temp_margin (s : Thermostat_API) : float := s.m_temp_margin

/-- Member `set_temp_setpoint`. -/
def set_temp_setpoint (s : Thermostat_API) (temp_setpoint : float) : Thermostat_API :=
  { s with m_temp_setpoint := temp_setpoint }

/-- Member `get_temp_setpoint`. -/
def get_temp_setpoint (s : Thermostat_API) : float := s.m_temp_setpoint

/-- Member `set_therm_mode`. -/
def set_therm_mode (s : Thermostat_API) (setting : therm_mode) : Thermostat_API :=
  { s with m_therm_mode := setting }

/-- Member `get_therm_mode`. -/
def get_therm_mode (s : Thermostat_API) : therm_mode := s.m_therm_mode

/-- Member `get_therm_status`. -/
def get_therm_status (s : Thermostat_API) : therm_status := s.m_therm_status

/-- One iteration of the loop body of `therm_controller` (lines 27-84), with the float sum,
difference and comparisons of the source. -/
def therm_controller_tick (p_this : Thermostat_API) : Thermostat_API :=
  let r := p_this.get_temp float.zero
  let current_temp := r.2
  if therm_err_no_temp_data = r.1 then
    { p_this with m_therm_cont_err := therm_err_no_temp_data }
  else
    if therm_mode_off = p_this.get_therm_mode then
      let p1 :=
        if therm_status_heating = p_this.get_therm_status then p_this.stop_heating
        else p_this
      if therm_status_cooling = p1.get_therm_status then p1.stop_cooling
      else p1
    else if (therm_mode_cool = p_this.get_therm_mode
              ∨ therm_mode_auto = p_this.get_therm_mode)
            ∧ current_temp.gt (p_this.get_temp_setpoint.add p_this.get_temp_margin) = true
            ∧ therm_status_cooling ≠ p_this.get_therm_status then
      p_this.start_cooling
    else if (therm_mode_heat = p_this.get_therm_mode
              ∨ therm_mode_auto = p_this.get_therm_mode)
            ∧ current_temp.lt (p_this.get_temp_setpoint.sub p_this.get_temp_margin) = true
            ∧ therm_status_heating ≠ p_this.get_therm_status then
      p_this.start_heating
    else if therm_status_heating = p_this.get_therm_status
            ∧ current_temp.ge p_this.get_temp_setpoint = true then
      p_this.stop_heating
    else if therm_status_cooling = p_this.get_therm_status
            ∧ current_temp.le p_this.get_temp_setpoint = true then
      p_this.stop_cooling
    else
      p_this

/-- One iteration of the loop body of `temp_UDP_listener`: `value` is the float that
`recvfrom` delivered, any binary32 value, NaN and the infinities included. -/
def temp_UDP_listener_recv (p_this : Thermostat_API) (value : float) : Thermostat_API :=
  { p_this with m_temp := value, m_is_temp_valid := true }

/-- The decision rules of the specification (section 4.2, step 2), first match wins, with
setpoint + margin and setpoint - margin taken as the float sum and difference and the
comparisons as float comparisons. -/
def spec_rules_float (mode : therm_mode) (status : therm_status)
    (setpoint margin temp : float) : therm_status :=
  if mode = therm_mode_off then therm_status_inactive
  else if (mode = therm_mode_cool ∨ mode = therm_mode_auto)
      ∧ temp.gt (setpoint.add margin) = true ∧ status ≠ therm_status_cooling then
    therm_status_cooling
  else if (mode = therm_mode_heat ∨ mode = therm_mode_auto)
      ∧ temp.lt (setpoint.sub margin) = true ∧ status ≠ therm_status_heating then
    therm_status_heating
  else if status = therm_status_heating ∧ temp.ge setpoint = true then therm_status_inactive
  else if status = therm_status_cooling ∧ temp.le setpoint = true then therm_status_inactive
  else status

/-- State built from the constructor by the setters and one accepted sample. -/
def with_sample (mode : therm_mode) (setpoint margin value : float) : Thermostat_API :=
  (((construct.set_therm_mode mode).set_temp_setpoint setpoint).set_temp_margin
    margin).temp_UDP_listener_recv value

/-- Cool mode, setpoint 16777216, margin 3, sample 16777220, Inactive: the exact sum
16777219 is not a binary32 value and rounds to 16777220. -/
def rounding_cool_large : Thermostat_API :=
  with_sample therm_mode_cool (f32 false 8388608 150) (f32 false 3 149) (f32 false 4194305 151)

/-- Cool mode, setpoint 60, margin 0.2f, sample 60.2f, Inactive: the exact sum 60 + 0.2f
rounds to 60.2f. -/
def rounding_cool : Thermostat_API :=
  with_sample therm_mode_cool (f32 false 60 149) (f32 false 13421773 123)
    (f32 false 15781069 131)

/-- Heat mode, setpoint 60, margin 0.2f, sample 59.8f, Inactive: the exact difference
60 - 0.2f rounds to 59.8f. -/
def rounding_heat : Thermostat_API :=
  with_sample therm_mode_heat (f32 false 60 149) (f32 false 13421773 123)
    (f32 false 15676211 131)

/-- Heat mode, setpoint 70, margin 2: heating is started by the sample 60, then a NaN sample
is accepted. -/
def nan_while_heating : Thermostat_API :=
  (with_sample therm_mode_heat (f32 false 70 149) (f32 false 2 149)
    (f32 false 60 149)).therm_controller_tick.temp_UDP_listener_recv float.nan

/-- Cool mode, setpoint 70, margin 2: cooling is started by the sample 80, then a NaN sample
is accepted. -/
def nan_while_cooling : Thermostat_API :=
  (with_sample therm_mode_cool (f32 false 70 149) (f32 false 2 149)
    (f32 false 80 149)).therm_controller_tick.temp_UDP_listener_recv float.nan

/-- Heat mode, setpoint 70, margin 2, Inactive, sample 68 = setpoint - margin. -/
def heat_boundary_float : Thermostat_API :=
  with_sample therm_mode_heat (f32 false 70 149) (f32 false 2 149) (f32 false 68 149)

/-- Heat mode, setpoint 70, margin 2, Heating (started at 60), sample 70 = setpoint. -/
def heating_at_setpoint_float : Thermostat_API :=
  (with_sample therm_mode_heat (f32 false 70 149) (f32 false 2 149)
    (f32 false 60 149)).therm_controller_tick.temp_UDP_listener_recv (f32 false 70 149)

/-- Scenario of the specification: Auto mode, margin 1, Heating (started at 30 with setpoint
70), sample 69, then the setpoint is set to 60. -/
def auto_heating_hot_float : Thermostat_API :=
  ((with_sample therm_mode_auto (f32 false 70 149) (f32 false 1 149)
    (f32 false 30 149)).therm_controller_tick.temp_UDP_listener_recv
      (f32 false 69 149)).set_temp_setpoint (f32 false 60 149)

/-- Cool mode, setpoint 70, margin 2, Cooling (started at 80), sample 71 inside the band. -/
def cooling_in_band_float : Thermostat_API :=
  (with_sample therm_mode_cool (f32 false 70 149) (f32 false 2 149)
    (f32 false 80 149)).therm_controller_tick.temp_UDP_listener_recv (f32 false 71 149)

end Thermostat_API

end binary32

namespace Thermostat_API

/-! ## One tick with a valid sample -/

/-- Status written by a tick with a valid sample, as a function of the members read. -/
theorem tick_status_of_valid (s : Thermostat_API) (hv : s.m_is_temp_valid = true) :
    s.therm_controller_tick.m_therm_status =
      spec_rules s.m_therm_mode s.m_therm_status s.m_temp_setpoint s.m_temp_margin
        s.m_temp := by
  obtain ⟨mode, status, port, temp, margin, setpoint, valid, err, calls⟩ := s
  subst hv
  cases mode <;> cases status <;>
    simp [therm_controller_tick, spec_rules, get_temp, get_therm_mode, get_therm_status,
      get_temp_setpoint, get_temp_margin, start_heating, stop_heating, start_cooling,
      stop_cooling] <;>
    split_ifs <;> simp_all

/-! ## One tick without a valid sample, and the controller error -/

/-- Effect of a tick without a valid sample: only the error member is written. -/
theorem tick_of_not_valid (s : Thermostat_API) (hv : s.m_is_temp_valid = false) :
    s.therm_controller_tick = { s with m_therm_cont_err := therm_err_no_temp_data } := by
  simp [therm_controller_tick, get_temp, hv]

/-- Effect of a tick with a valid sample on the error member: it is not written. -/
theorem tick_err_of_valid (s : Thermostat_API) (hv : s.m_is_temp_valid = true) :
    s.therm_controller_tick.m_therm_cont_err = s.m_therm_cont_err := by
  obtain ⟨mode, status, port, temp, margin, setpoint, valid, err, calls⟩ := s
  simp only at hv
  subst hv
  simp only [therm_controller_tick, get_temp, get_therm_mode, get_therm_status,
    get_temp_setpoint, get_temp_margin, start_heating, stop_heating, start_cooling,
    stop_cooling]
  split_ifs <;> first | rfl | contradiction

/-- C7: without a valid sample, whatever the mode, setpoint, margin and status, one tick sets
the controller error to NoTemperatureData, leaves the status unchanged and calls none of the
four actuator members. -/
theorem tick_no_sample (s : Thermostat_API) (hv : s.m_is_temp_valid = false) :
    s.therm_controller_tick.get_therm_cont_err = therm_err_no_temp_data ∧
      s.therm_controller_tick.get_therm_status = s.get_therm_status ∧
      s.therm_controller_tick.actuator_calls = s.actuator_calls := by
  rw [tick_of_not_valid s hv]
  exact ⟨rfl, rfl, rfl⟩

/-- Witness of C7: status Heating, mode Cool, error None and no sample. -/
theorem tick_no_sample_witness :
    heating_no_sample.m_is_temp_valid = false ∧
      heating_no_sample.therm_controller_tick.get_therm_cont_err = therm_err_no_temp_data ∧
      heating_no_sample.therm_controller_tick.get_therm_status = therm_status_heating ∧
      heating_no_sample.therm_controller_tick.actuator_calls = [] :=
  ⟨rfl, tick_no_sample heating_no_sample rfl⟩

/-- C8, the code at the failing input: after the constructor, one accepted sample (72) and one
tick, the sample is valid and `get_therm_cont_err` still returns NoTemperatureData, not
None. -/
theorem tick_valid_err_not_none :
    (construct.run [event.sample 72]).m_is_temp_valid = true ∧
      (construct.run [event.sample 72, event.tick]).get_therm_cont_err
        = therm_err_no_temp_data ∧
      (construct.run [event.sample 72, event.tick]).get_therm_cont_err ≠ therm_err_none := by
  have h : (construct.run [event.sample 72, event.tick]).get_therm_cont_err
      = therm_err_no_temp_data := by
    show (construct.temp_UDP_listener_recv 72).therm_controller_tick.m_therm_cont_err = _
    rw [tick_err_of_valid _ rfl]
    rfl
  exact ⟨rfl, h, by rw [h]; decide⟩

/-! ## Frame lemmas and sequences of steps -/

/-- A tick does not write the validity flag. -/
theorem tick_valid (s : Thermostat_API) :
    s.therm_controller_tick.m_is_temp_valid = s.m_is_temp_valid := by
  simp only [therm_controller_tick, get_temp, get_therm_mode, get_therm_status,
    get_temp_setpoint, get_temp_margin, start_heating, stop_heating, start_cooling,
    stop_cooling]
  split_ifs <;> rfl

/-- A tick does not write the mode. -/
theorem tick_mode (s : Thermostat_API) :
    s.therm_controller_tick.m_therm_mode = s.m_therm_mode := by
  simp only [therm_controller_tick, get_temp, get_therm_mode, get_therm_status,
    get_temp_setpoint, get_temp_margin, start_heating, stop_heating, start_cooling,
    stop_cooling]
  split_ifs <;> rfl

/-- A tick does not write the setpoint. -/
theorem tick_setpoint (s : Thermostat_API) :
    s.therm_controller_tick.m_temp_setpoint = s.m_temp_setpoint := by
  simp only [therm_controller_tick, get_temp, get_therm_mode, get_therm_status,
    get_temp_setpoint, get_temp_margin, start_heating, stop_heating, start_cooling,
    stop_cooling]
  split_ifs <;> rfl

/-- A tick does not write the margin. -/
theorem tick_margin (s : Thermostat_API) :
    s.therm_controller_tick.m_temp_margin = s.m_temp_margin := by
  simp only [therm_controller_tick, get_temp, get_therm_mode, get_therm_status,
    get_temp_setpoint, get_temp_margin, start_heating, stop_heating, start_cooling,
    stop_cooling]
  split_ifs <;> rfl

/-- A tick does not write the stored sample. -/
theorem tick_temp (s : Thermostat_API) :
    s.therm_controller_tick.m_temp = s.m_temp := by
  simp only [therm_controller_tick, get_temp, get_therm_mode, get_therm_status,
    get_temp_setpoint, get_temp_margin, start_heating, stop_heating, start_cooling,
    stop_cooling]
  split_ifs <;> rfl

/-- A tick in mode Off with a valid sample ends Inactive. -/
theorem tick_off_of_valid (s : Thermostat_API) (hv : s.m_is_temp_valid = true)
    (hoff : s.m_therm_mode = therm_mode_off) :
    s.therm_controller_tick.m_therm_status = therm_status_inactive := by
  obtain ⟨mode, status, port, temp, margin, setpoint, valid, err, calls⟩ := s
  simp only at hv hoff
  subst hv hoff
  cases status <;>
    simp [therm_controller_tick, get_temp, get_therm_mode, get_therm_status, stop_heating,
      stop_cooling]

theorem run_nil (s : Thermostat_API) : s.run [] = s := rfl

theorem run_cons (s : Thermostat_API) (e : event) (evs : List event) :
    s.run (e :: evs) = (s.step e).run evs := rfl

theorem run_append (s : Thermostat_API) (evs later : List event) :
    s.run (evs ++ later) = (s.run evs).run later := by
  simp [run, List.foldl_append]

/-- An inductive invariant that holds initially holds after every sequence of steps whose
steps all satisfy `ok`. -/
theorem run_invariant (inv : Thermostat_API → Prop) (ok : event → Prop)
    (hstep : ∀ s e, inv s → ok e → inv (s.step e)) :
    ∀ (evs : List event) (s : Thermostat_API), inv s → (∀ e ∈ evs, ok e) → inv (s.run evs)
  | [], _, hs, _ => hs
  | e :: evs, s, hs, hok => by
    rw [run_cons]
    exact run_invariant inv ok hstep evs (s.step e) (hstep s e hs (hok e (by simp)))
      (fun e1 he1 => hok e1 (by simp [he1]))

theorem no_sample_inv_step (s : Thermostat_API) (e : event) (hs : no_sample_inv s)
    (he : e.is_sample = false) : no_sample_inv (s.step e) := by
  obtain ⟨hv, herr, hst⟩ := hs
  cases e with
  | set_temp_margin v => exact ⟨hv, herr, hst⟩
  | set_temp_setpoint v => exact ⟨hv, herr, hst⟩
  | set_therm_mode m => exact ⟨hv, herr, hst⟩
  | sample v => simp [event.is_sample] at he
  | tick =>
    show no_sample_inv s.therm_controller_tick
    rw [tick_of_not_valid s hv]
    exact ⟨hv, rfl, hst⟩

theorem active_valid_inv_step (s : Thermostat_API) (e : event) (hs : active_valid_inv s) :
    active_valid_inv (s.step e) := by
  cases e with
  | set_temp_margin v => exact hs
  | set_temp_setpoint v => exact hs
  | set_therm_mode m => exact hs
  | sample v => exact fun _ => rfl
  | tick =>
    show active_valid_inv s.therm_controller_tick
    intro hact
    rw [tick_valid]
    by_contra hv
    have hv0 : s.m_is_temp_valid = false := by simpa using hv
    rw [tick_of_not_valid s hv0] at hact
    exact hv (hs hact)

theorem active_valid_inv_run (evs : List event) : active_valid_inv (construct.run evs) :=
  run_invariant active_valid_inv (fun _ => True)
    (fun s e hs _ => active_valid_inv_step s e hs) evs construct
    (fun h => absurd rfl h) (fun _ _ => trivial)

theorem off_inactive_inv_step (s : Thermostat_API) (e : event) (hs : off_inactive_inv s)
    (he : e.keeps_off = true) : off_inactive_inv (s.step e) := by
  obtain ⟨hoff, hst⟩ := hs
  cases e with
  | set_temp_margin v => exact ⟨hoff, hst⟩
  | set_temp_setpoint v => exact ⟨hoff, hst⟩
  | set_therm_mode m =>
    have hm : m = therm_mode_off := by simpa [event.keeps_off] using he
    exact ⟨hm, hst⟩
  | sample v => exact ⟨hoff, hst⟩
  | tick =>
    show off_inactive_inv s.therm_controller_tick
    refine ⟨by rw [tick_mode]; exact hoff, ?_⟩
    cases hv : s.m_is_temp_valid with
    | false => rw [tick_of_not_valid s hv]; exact hst
    | true => exact tick_off_of_valid s hv hoff

/-- C6: in every state reached from the constructor by setter calls, accepted samples and
ticks, if the mode is Off then the status after one tick is Inactive, and after any further
steps that keep the mode Off (ticks, samples, setpoint and margin changes) the mode is still
Off and the status still Inactive. -/
theorem off_mode_inactive (evs later : List event)
    (hoff : (construct.run evs).m_therm_mode = therm_mode_off)
    (hlater : ∀ e ∈ later, e.keeps_off = true) :
    (construct.run evs).therm_controller_tick.get_therm_status = therm_status_inactive ∧
      (((construct.run evs).therm_controller_tick).run later).get_therm_mode
        = therm_mode_off ∧
      (((construct.run evs).therm_controller_tick).run later).get_therm_status
        = therm_status_inactive := by
  have h1 : off_inactive_inv (construct.run evs).therm_controller_tick := by
    refine ⟨by rw [tick_mode]; exact hoff, ?_⟩
    cases hv : (construct.run evs).m_is_temp_valid with
    | false =>
      rw [tick_of_not_valid _ hv]
      by_contra hact
      have := active_valid_inv_run evs hact
      rw [hv] at this
      exact Bool.noConfusion this
    | true => exact tick_off_of_valid _ hv hoff
  have h2 := run_invariant off_inactive_inv (fun e => e.keeps_off = true)
    off_inactive_inv_step later _ h1 hlater
  exact ⟨h1.2, h2.1, h2.2⟩

/-- Witness of C6: cooling is running when the mode is set to Off; the next tick stops it and
the status stays Inactive through later samples and ticks. -/
theorem off_mode_inactive_witness :
    ((construct.run cooling_then_off).m_therm_mode = therm_mode_off ∧
      (construct.run cooling_then_off).m_therm_status = therm_status_cooling ∧
      ∀ e ∈ off_steps, e.keeps_off = true) ∧
    ((construct.run cooling_then_off).therm_controller_tick.get_therm_status
        = therm_status_inactive ∧
      (((construct.run cooling_then_off).therm_controller_tick).run off_steps).get_therm_mode
        = therm_mode_off ∧
      (((construct.run cooling_then_off).therm_controller_tick).run off_steps).get_therm_status
        = therm_status_inactive) :=
  ⟨⟨rfl, by
      simp [cooling_then_off, run, step, construct, set_therm_mode,
        temp_UDP_listener_recv, therm_controller_tick, get_temp, get_therm_mode,
        get_therm_status, get_temp_setpoint, get_temp_margin, start_cooling]
      norm_num,
      by decide⟩,
    off_mode_inactive cooling_then_off off_steps rfl (by decide)⟩

/-- C9: after setter calls and ticks only (no accepted sample), `get_therm_cont_err` is
NoTemperatureData, `get_temp` reports NoTemperatureData and the status is Inactive; and in
every reachable state a status of Heating or Cooling implies that a sample was accepted. -/
theorem before_any_sample (evs : List event) (t : ℚ) :
    ((∀ e ∈ evs, e.is_sample = false) →
      (construct.run evs).get_therm_cont_err = therm_err_no_temp_data ∧
      ((construct.run evs).get_temp t).1 = therm_err_no_temp_data ∧
      (construct.run evs).get_therm_status = therm_status_inactive) ∧
    ((construct.run evs).get_therm_status ≠ therm_status_inactive →
      (∃ e ∈ evs, e.is_sample = true) ∧ (construct.run evs).m_is_temp_valid = true) := by
  have key : (∀ e ∈ evs, e.is_sample = false) → no_sample_inv (construct.run evs) :=
    fun hns => run_invariant no_sample_inv (fun e => e.is_sample = false)
      no_sample_inv_step evs construct ⟨rfl, rfl, rfl⟩ hns
  refine ⟨fun hns => ?_, fun hact => ⟨?_, active_valid_inv_run evs hact⟩⟩
  · obtain ⟨hv, herr, hst⟩ := key hns
    exact ⟨herr, by simp [get_temp, hv], hst⟩
  · by_contra hnone
    have hns : ∀ e ∈ evs, e.is_sample = false := by
      intro e he
      cases h : e.is_sample with
      | false => rfl
      | true => exact absurd ⟨e, he, h⟩ hnone
    exact hact (key hns).2.2

/-- Witness of C9: a history of setter calls and ticks only, and a history that reaches
Heating. -/
theorem before_any_sample_witness :
    ((∀ e ∈ settings_only, e.is_sample = false) ∧
      (construct.run settings_only).get_therm_cont_err = therm_err_no_temp_data ∧
      ((construct.run settings_only).get_temp 0).1 = therm_err_no_temp_data ∧
      (construct.run settings_only).get_therm_status = therm_status_inactive) ∧
    ((construct.run heating_history).get_therm_status ≠ therm_status_inactive ∧
      (∃ e ∈ heating_history, e.is_sample = true) ∧
      (construct.run heating_history).m_is_temp_valid = true) := by
  have hns : ∀ e ∈ settings_only, e.is_sample = false := by decide
  have hact : (construct.run heating_history).get_therm_status ≠ therm_status_inactive := by
    have h67 : (67 : ℚ) < 70 - 2 := by norm_num
    simp [heating_history, run, step, construct, set_therm_mode, set_temp_setpoint,
      set_temp_margin, temp_UDP_listener_recv, therm_controller_tick, get_temp,
      get_therm_mode, get_therm_status, get_temp_setpoint, get_temp_margin, start_heating,
      h67]
  exact ⟨⟨hns, (before_any_sample settings_only 0).1 hns⟩,
    ⟨hact, (before_any_sample heating_history 0).2 hact⟩⟩

/-! ## Idempotence of the tick -/

/-- Applying the rule list twice with the same inputs gives what applying it once gives, when
the margin is not negative. -/
theorem spec_rules_idem (mode : therm_mode) (status : therm_status)
    (setpoint margin temp : ℚ) (hmargin : 0 ≤ margin) :
    spec_rules mode (spec_rules mode status setpoint margin temp) setpoint margin temp =
      spec_rules mode status setpoint margin temp := by
  cases mode <;> cases status <;> simp [spec_rules] <;> split_ifs <;> simp_all <;> linarith

/-- C10: with a margin that is not negative, a second tick with the same sample and settings
leaves the status reached by the first, whether the sample is valid or not and whatever the
mode and the status. -/
theorem tick_tick_status (s : Thermostat_API) (hmargin : 0 ≤ s.m_temp_margin) :
    s.therm_controller_tick.therm_controller_tick.get_therm_status =
      s.therm_controller_tick.get_therm_status := by
  show s.therm_controller_tick.therm_controller_tick.m_therm_status =
    s.therm_controller_tick.m_therm_status
  cases hv : s.m_is_temp_valid with
  | false =>
    have h1 := tick_of_not_valid s hv
    have hv1 : s.therm_controller_tick.m_is_temp_valid = false := by rw [tick_valid]; exact hv
    rw [tick_of_not_valid _ hv1]
  | true =>
    have hv1 : s.therm_controller_tick.m_is_temp_valid = true := by rw [tick_valid]; exact hv
    rw [tick_status_of_valid _ hv1, tick_mode, tick_setpoint, tick_margin, tick_temp,
      tick_status_of_valid s hv]
    exact spec_rules_idem _ _ _ _ _ hmargin

/-- Witness of C10 with a status left over from another mode: Cooling in Heat mode, sample
below setpoint - margin; the first tick starts heating and the second keeps it. -/
theorem tick_tick_status_witness :
    0 ≤ leftover_cooling.m_temp_margin ∧
      leftover_cooling.therm_controller_tick.therm_controller_tick.get_therm_status =
        leftover_cooling.therm_controller_tick.get_therm_status :=
  ⟨by norm_num [leftover_cooling],
    tick_tick_status leftover_cooling (by norm_num [leftover_cooling])⟩

/-! ## Reading the sample, setters and getters, constructor defaults -/

theorem sample_inv_step (v : ℚ) (s : Thermostat_API) (e : event) (hs : sample_inv v s)
    (he : e.is_sample = false) : sample_inv v (s.step e) := by
  obtain ⟨hv, ht⟩ := hs
  cases e with
  | set_temp_margin x => exact ⟨hv, ht⟩
  | set_temp_setpoint x => exact ⟨hv, ht⟩
  | set_therm_mode m => exact ⟨hv, ht⟩
  | sample x => simp [event.is_sample] at he
  | tick =>
    show sample_inv v s.therm_controller_tick
    exact ⟨by rw [tick_valid]; exact hv, by rw [tick_temp]; exact ht⟩

/-- Validity of the sample is kept by every step. -/
theorem step_valid_mono (s : Thermostat_API) (e : event) (hv : s.m_is_temp_valid = true) :
    (s.step e).m_is_temp_valid = true := by
  cases e with
  | set_temp_margin x => exact hv
  | set_temp_setpoint x => exact hv
  | set_therm_mode m => exact hv
  | sample x => rfl
  | tick =>
    show s.therm_controller_tick.m_is_temp_valid = true
    rw [tick_valid]; exact hv

/-- After a history that contains a sample step the sample is valid. -/
theorem valid_of_sample_mem :
    ∀ (evs : List event) (s : Thermostat_API), (∃ e ∈ evs, e.is_sample = true) →
      (s.run evs).m_is_temp_valid = true
  | [], _, h => by simp at h
  | e :: evs, s, h => by
    rw [run_cons]
    by_cases htail : ∃ e1 ∈ evs, e1.is_sample = true
    · exact valid_of_sample_mem evs (s.step e) htail
    · have he : e.is_sample = true := by
        obtain ⟨e1, hmem, h1⟩ := h
        rcases List.mem_cons.mp hmem with rfl | hin
        · exact h1
        · exact absurd ⟨e1, hin, h1⟩ htail
      have hv : (s.step e).m_is_temp_valid = true := by
        cases e with
        | sample x => rfl
        | set_temp_margin x => simp [event.is_sample] at he
        | set_temp_setpoint x => simp [event.is_sample] at he
        | set_therm_mode m => simp [event.is_sample] at he
        | tick => simp [event.is_sample] at he
      exact run_invariant (fun s1 => s1.m_is_temp_valid = true) (fun _ => True)
        (fun s1 e1 h1 _ => step_valid_mono s1 e1 h1) evs _ hv (fun _ _ => trivial)

/-- C11: after any history of setter calls, ticks and accepted samples from the constructor,
`get_temp` returns NoTemperatureData exactly when the history has no sample (the reference
parameter is then left as it was), and when the last sample of the history is `v` it returns
None with the value `v`. -/
theorem get_temp_after_history (evs pre post : List event) (v t : ℚ) :
    (((construct.run evs).get_temp t).1 = therm_err_no_temp_data ↔
        ∀ e ∈ evs, e.is_sample = false) ∧
      ((∀ e ∈ evs, e.is_sample = false) →
        (construct.run evs).get_temp t = (therm_err_no_temp_data, t)) ∧
      ((∀ e ∈ post, e.is_sample = false) →
        (construct.run (pre ++ event.sample v :: post)).get_temp t = (therm_err_none, v)) := by
  have hnone : (∀ e ∈ evs, e.is_sample = false) →
      (construct.run evs).get_temp t = (therm_err_no_temp_data, t) := by
    intro hns
    have h := run_invariant no_sample_inv (fun e => e.is_sample = false)
      no_sample_inv_step evs construct ⟨rfl, rfl, rfl⟩ hns
    simp [get_temp, h.1]
  refine ⟨⟨fun herr => ?_, fun hns => by rw [hnone hns]⟩, hnone, fun hpost => ?_⟩
  · by_contra hex
    have hex1 : ∃ e ∈ evs, e.is_sample = true := by
      by_contra hno
      apply hex
      intro e he
      cases h : e.is_sample with
      | false => rfl
      | true => exact absurd ⟨e, he, h⟩ hno
    have hv := valid_of_sample_mem evs construct hex1
    simp [get_temp, hv] at herr
  · rw [run_append, run_cons]
    have h0 : sample_inv v ((construct.run pre).step (event.sample v)) := ⟨rfl, rfl⟩
    have h := run_invariant (sample_inv v) (fun e => e.is_sample = false)
      (sample_inv_step v) post _ h0 hpost
    simp [get_temp, h.1, h.2]

/-- Witness of C11: a history with the samples 60 and 75, read after the second. -/
theorem get_temp_after_history_witness :
    (∀ e ∈ settings_only, e.is_sample = false) ∧
      (∀ e ∈ [event.tick, event.set_temp_margin 2, event.set_temp_setpoint 80, event.tick],
        e.is_sample = false) ∧
      (construct.run settings_only).get_temp 5 = (therm_err_no_temp_data, 5) ∧
      (construct.run two_samples).get_temp 5 = (therm_err_none, 75) :=
  ⟨by decide, by decide,
    (get_temp_after_history settings_only [] [] 0 5).2.1 (by decide),
    (get_temp_after_history []
      [event.set_therm_mode therm_mode_auto, event.sample 60, event.tick]
      [event.tick, event.set_temp_margin 2, event.set_temp_setpoint 80, event.tick]
      75 5).2.2 (by decide)⟩

/-- C12: the three setters and the acceptance of a sample leave the status and the controller
error as they were; so does every sequence of such steps, up to the next tick. -/
theorem status_err_written_by_tick_only (s : Thermostat_API) (m : therm_mode) (v : ℚ)
    (evs : List event) :
    ((s.set_therm_mode m).get_therm_status = s.get_therm_status ∧
        (s.set_therm_mode m).get_therm_cont_err = s.get_therm_cont_err) ∧
      ((s.set_temp_setpoint v).get_therm_status = s.get_therm_status ∧
        (s.set_temp_setpoint v).get_therm_cont_err = s.get_therm_cont_err) ∧
      ((s.set_temp_margin v).get_therm_status = s.get_therm_status ∧
        (s.set_temp_margin v).get_therm_cont_err = s.get_therm_cont_err) ∧
      ((s.temp_UDP_listener_recv v).get_therm_status = s.get_therm_status ∧
        (s.temp_UDP_listener_recv v).get_therm_cont_err = s.get_therm_cont_err) ∧
      ((∀ e ∈ evs, e ≠ event.tick) →
        (s.run evs).get_therm_status = s.get_therm_status ∧
        (s.run evs).get_therm_cont_err = s.get_therm_cont_err) := by
  refine ⟨⟨rfl, rfl⟩, ⟨rfl, rfl⟩, ⟨rfl, rfl⟩, ⟨rfl, rfl⟩, fun hnt => ?_⟩
  exact run_invariant
    (fun s1 => s1.get_therm_status = s.get_therm_status ∧
      s1.get_therm_cont_err = s.get_therm_cont_err)
    (fun e => e ≠ event.tick)
    (fun s1 e h1 he => by
      cases e with
      | set_temp_margin x => exact h1
      | set_temp_setpoint x => exact h1
      | set_therm_mode m1 => exact h1
      | sample x => exact h1
      | tick => exact absurd rfl he)
    evs s ⟨rfl, rfl⟩ hnt

/-- Witness of C12: Heating in Auto mode at 69; lowering the setpoint to 60 and accepting a
new sample leave the status Heating until the tick. -/
theorem status_err_written_by_tick_only_witness :
    (∀ e ∈ [event.set_temp_setpoint 60, event.sample 90, event.set_temp_margin 0,
        event.set_therm_mode therm_mode_cool], e ≠ event.tick) ∧
      (auto_heating_hot.run [event.set_temp_setpoint 60, event.sample 90,
        event.set_temp_margin 0, event.set_therm_mode therm_mode_cool]).get_therm_status
        = therm_status_heating ∧
      (auto_heating_hot.run [event.set_temp_setpoint 60, event.sample 90,
        event.set_temp_margin 0, event.set_therm_mode therm_mode_cool]).get_therm_cont_err
        = therm_err_no_temp_data :=
  have hnt : ∀ e ∈ [event.set_temp_setpoint 60, event.sample 90, event.set_temp_margin 0,
      event.set_therm_mode therm_mode_cool], e ≠ event.tick := by simp
  ⟨hnt, (status_err_written_by_tick_only auto_heating_hot therm_mode_off 0 _).2.2.2.2 hnt⟩

/-- C13: set then get returns the value set, for the setpoint, the margin (negative values
included) and the mode; each setter leaves the two other settings, the stored sample and its
validity flag as they were. -/
theorem set_get_round_trip (s : Thermostat_API) (v : ℚ) (m : therm_mode) :
    ((s.set_temp_setpoint v).get_temp_setpoint = v ∧
        (s.set_temp_setpoint v).get_temp_margin = s.get_temp_margin ∧
        (s.set_temp_setpoint v).get_therm_mode = s.get_therm_mode ∧
        (∀ t, (s.set_temp_setpoint v).get_temp t = s.get_temp t)) ∧
      ((s.set_temp_margin v).get_temp_margin = v ∧
        (s.set_temp_margin v).get_temp_setpoint = s.get_temp_setpoint ∧
        (s.set_temp_margin v).get_therm_mode = s.get_therm_mode ∧
        (∀ t, (s.set_temp_margin v).get_temp t = s.get_temp t)) ∧
      ((s.set_therm_mode m).get_therm_mode = m ∧
        (s.set_therm_mode m).get_temp_setpoint = s.get_temp_setpoint ∧
        (s.set_therm_mode m).get_temp_margin = s.get_temp_margin ∧
        (∀ t, (s.set_therm_mode m).get_temp t = s.get_temp t)) ∧
      ((s.set_temp_setpoint v).m_temp = s.m_temp ∧
        (s.set_temp_margin v).m_temp = s.m_temp ∧
        (s.set_therm_mode m).m_temp = s.m_temp ∧
        (s.set_temp_setpoint v).m_is_temp_valid = s.m_is_temp_valid ∧
        (s.set_temp_margin v).m_is_temp_valid = s.m_is_temp_valid ∧
        (s.set_therm_mode m).m_is_temp_valid = s.m_is_temp_valid) :=
  ⟨⟨rfl, rfl, rfl, fun _ => rfl⟩, ⟨rfl, rfl, rfl, fun _ => rfl⟩,
    ⟨rfl, rfl, rfl, fun _ => rfl⟩, ⟨rfl, rfl, rfl, rfl, rfl, rfl⟩⟩

/-- C15: the state built by the constructor has mode Off, status Inactive, setpoint 72,
margin 1 and no valid sample: `get_temp` reports NoTemperatureData. -/
theorem construct_defaults (t : ℚ) :
    construct.get_therm_mode = therm_mode_off ∧
      construct.get_therm_status = therm_status_inactive ∧
      construct.get_temp_setpoint = 72 ∧
      construct.get_temp_margin = 1 ∧
      construct.m_is_temp_valid = false ∧
      construct.get_temp t = (therm_err_no_temp_data, t) :=
  ⟨rfl, rfl, rfl, rfl, rfl, rfl⟩

/-! ## The margin is stored without validation -/

/-- A tick changes the status only with a valid sample. -/
theorem valid_of_tick_status_ne (s : Thermostat_API)
    (h : s.therm_controller_tick.m_therm_status ≠ s.m_therm_status) :
    s.m_is_temp_valid = true := by
  cases hv : s.m_is_temp_valid with
  | true => rfl
  | false =>
    rw [tick_of_not_valid s hv] at h
    exact absurd rfl h

/-- A tick that takes the status from something else to Heating saw a sample strictly below
setpoint - margin. -/
theorem temp_of_tick_starts_heating (s : Thermostat_API)
    (h0 : s.m_therm_status ≠ therm_status_heating)
    (h1 : s.therm_controller_tick.m_therm_status = therm_status_heating) :
    s.m_temp < s.m_temp_setpoint - s.m_temp_margin := by
  have hv := valid_of_tick_status_ne s (by rw [h1]; exact fun h => h0 h.symm)
  rw [tick_status_of_valid s hv] at h1
  unfold spec_rules at h1
  split_ifs at h1 with c1 c2 c3 c4 c5
  · exact c3.2.1
  · exact absurd h1 h0

/-- A tick that takes the status from something else to Cooling saw a sample strictly above
setpoint + margin. -/
theorem temp_of_tick_starts_cooling (s : Thermostat_API)
    (h0 : s.m_therm_status ≠ therm_status_cooling)
    (h1 : s.therm_controller_tick.m_therm_status = therm_status_cooling) :
    s.m_temp > s.m_temp_setpoint + s.m_temp_margin := by
  have hv := valid_of_tick_status_ne s (by rw [h1]; exact fun h => h0 h.symm)
  rw [tick_status_of_valid s hv] at h1
  unfold spec_rules at h1
  split_ifs at h1 with c1 c2 c3 c4 c5
  · exact c2.2.1
  · exact absurd h1 h0

/-- A tick in a mode other than Off that takes the status from Heating to Inactive saw a
sample at or above the setpoint. -/
theorem temp_of_tick_stops_heating (s : Thermostat_API)
    (hmode : s.m_therm_mode ≠ therm_mode_off)
    (h0 : s.m_therm_status = therm_status_heating)
    (h1 : s.therm_controller_tick.m_therm_status = therm_status_inactive) :
    s.m_temp ≥ s.m_temp_setpoint := by
  have hv := valid_of_tick_status_ne s (by rw [h1, h0]; decide)
  rw [tick_status_of_valid s hv] at h1
  unfold spec_rules at h1
  split_ifs at h1 with c1 c2 c3 c4 c5
  · exact absurd c1 hmode
  · exact c4.2
  · rw [h0] at c5; exact absurd c5.1 (by decide)
  · rw [h0] at h1; exact absurd h1 (by decide)

/-- A tick in a mode other than Off that takes the status from Cooling to Inactive saw a
sample at or below the setpoint. -/
theorem temp_of_tick_stops_cooling (s : Thermostat_API)
    (hmode : s.m_therm_mode ≠ therm_mode_off)
    (h0 : s.m_therm_status = therm_status_cooling)
    (h1 : s.therm_controller_tick.m_therm_status = therm_status_inactive) :
    s.m_temp ≤ s.m_temp_setpoint := by
  have hv := valid_of_tick_status_ne s (by rw [h1, h0]; decide)
  rw [tick_status_of_valid s hv] at h1
  unfold spec_rules at h1
  split_ifs at h1 with c1 c2 c3 c4 c5
  · exact absurd c1 hmode
  · rw [h0] at c4; exact absurd c4.1 (by decide)
  · exact c5.2
  · rw [h0] at h1; exact absurd h1 (by decide)

/-- C17: with the same setpoint at both ticks and a mode other than Off at the stopping tick,
a tick at temperature t1 that goes from Inactive to Heating and a tick at t2 that goes from
Heating to Inactive have t2 - t1 > margin; a tick at t1 that goes from Inactive to Cooling and
a tick at t2 that goes from Cooling to Inactive have t1 - t2 > margin. The margin is the one
read by the starting tick; the stopping tick compares with the setpoint alone, so the margin
it holds plays no part. -/
theorem start_stop_separation (s1 s2 : Thermostat_API)
    (hsp : s2.m_temp_setpoint = s1.m_temp_setpoint)
    (hmode : s2.m_therm_mode ≠ therm_mode_off) :
    (s1.m_therm_status = therm_status_inactive →
      s1.therm_controller_tick.m_therm_status = therm_status_heating →
      s2.m_therm_status = therm_status_heating →
      s2.therm_controller_tick.m_therm_status = therm_status_inactive →
      s2.m_temp - s1.m_temp > s1.m_temp_margin) ∧
    (s1.m_therm_status = therm_status_inactive →
      s1.therm_controller_tick.m_therm_status = therm_status_cooling →
      s2.m_therm_status = therm_status_cooling →
      s2.therm_controller_tick.m_therm_status = therm_status_inactive →
      s1.m_temp - s2.m_temp > s1.m_temp_margin) := by
  constructor
  · intro a0 a1 b0 b1
    have h1 := temp_of_tick_starts_heating s1 (by rw [a0]; decide) a1
    have h2 := temp_of_tick_stops_heating s2 hmode b0 b1
    rw [hsp] at h2
    linarith
  · intro a0 a1 b0 b1
    have h1 := temp_of_tick_starts_cooling s1 (by rw [a0]; decide) a1
    have h2 := temp_of_tick_stops_cooling s2 hmode b0 b1
    rw [hsp] at h2
    linarith

/-- Witness of C17 with setpoint 70 and margin 2: heating starts at 67 and stops at 70,
cooling starts at 73 and stops at 70. -/
theorem start_stop_separation_witness :
    (heating_at_setpoint.m_temp_setpoint = heat_cold.m_temp_setpoint ∧
      heating_at_setpoint.m_therm_mode ≠ therm_mode_off ∧
      heat_cold.m_therm_status = therm_status_inactive ∧
      heat_cold.therm_controller_tick.m_therm_status = therm_status_heating ∧
      heating_at_setpoint.m_therm_status = therm_status_heating ∧
      heating_at_setpoint.therm_controller_tick.m_therm_status = therm_status_inactive ∧
      heating_at_setpoint.m_temp - heat_cold.m_temp > heat_cold.m_temp_margin) ∧
    (cooling_at_setpoint.m_temp_setpoint = cool_hot.m_temp_setpoint ∧
      cooling_at_setpoint.m_therm_mode ≠ therm_mode_off ∧
      cool_hot.m_therm_status = therm_status_inactive ∧
      cool_hot.therm_controller_tick.m_therm_status = therm_status_cooling ∧
      cooling_at_setpoint.m_therm_status = therm_status_cooling ∧
      cooling_at_setpoint.therm_controller_tick.m_therm_status = therm_status_inactive ∧
      cool_hot.m_temp - cooling_at_setpoint.m_temp > cool_hot.m_temp_margin) := by
  have a1 : heat_cold.therm_controller_tick.m_therm_status = therm_status_heating := by
    rw [tick_status_of_valid _ rfl]
    have hn : (67 : ℚ) < 70 - 2 := by norm_num
    simp [spec_rules, heat_cold, construct, hn]
  have b1 : heating_at_setpoint.therm_controller_tick.m_therm_status
      = therm_status_inactive := by
    rw [tick_status_of_valid _ rfl]
    simp [spec_rules, heating_at_setpoint, construct]
  have c1 : cool_hot.therm_controller_tick.m_therm_status = therm_status_cooling := by
    rw [tick_status_of_valid _ rfl]
    have hn : (73 : ℚ) > 70 + 2 := by norm_num
    simp [spec_rules, cool_hot, construct, hn]
  have d1 : cooling_at_setpoint.therm_controller_tick.m_therm_status
      = therm_status_inactive := by
    rw [tick_status_of_valid _ rfl]
    simp [spec_rules, cooling_at_setpoint, construct]
  exact ⟨⟨rfl, by decide, rfl, a1, rfl, b1,
      (start_stop_separation heat_cold heating_at_setpoint rfl (by decide)).1 rfl a1 rfl b1⟩,
    ⟨rfl, by decide, rfl, c1, rfl, d1,
      (start_stop_separation cool_hot cooling_at_setpoint rfl (by decide)).2 rfl c1 rfl d1⟩⟩

/-- C18: with a valid sample, status Inactive and setpoint - margin ≤ temp ≤ setpoint + margin
(both bounds included), one tick leaves the status Inactive, in every mode. -/
theorem dead_band_inactive (s : Thermostat_API) (hv : s.m_is_temp_valid = true)
    (hs : s.m_therm_status = therm_status_inactive)
    (hlo : s.m_temp_setpoint - s.m_temp_margin ≤ s.m_temp)
    (hhi : s.m_temp ≤ s.m_temp_setpoint + s.m_temp_margin) :
    s.therm_controller_tick.get_therm_status = therm_status_inactive := by
  show s.therm_controller_tick.m_therm_status = therm_status_inactive
  rw [tick_status_of_valid s hv]
  unfold spec_rules
  split_ifs with c1 c2 c3 c4 c5
  · rfl
  · exact absurd c2.2.1 (not_lt.mpr hhi)
  · exact absurd c3.2.1 (not_lt.mpr hlo)
  · rfl
  · rfl
  · exact hs

/-- Witness of C18 on the upper edge of the band: Auto, setpoint 70, margin 2, sample 72. -/
theorem dead_band_inactive_witness :
    (auto_band_edge.m_is_temp_valid = true ∧
      auto_band_edge.m_therm_status = therm_status_inactive ∧
      auto_band_edge.m_temp_setpoint - auto_band_edge.m_temp_margin ≤ auto_band_edge.m_temp ∧
      auto_band_edge.m_temp ≤ auto_band_edge.m_temp_setpoint + auto_band_edge.m_temp_margin) ∧
    auto_band_edge.therm_controller_tick.get_therm_status = therm_status_inactive :=
  ⟨⟨rfl, rfl, by norm_num [auto_band_edge], by norm_num [auto_band_edge]⟩,
    dead_band_inactive auto_band_edge rfl rfl (by norm_num [auto_band_edge])
      (by norm_num [auto_band_edge])⟩

/-- In Heat mode a tick does not take a status other than Cooling to Cooling. -/
theorem tick_heat_not_cooling (s : Thermostat_API) (hm : s.m_therm_mode = therm_mode_heat)
    (hs : s.m_therm_status ≠ therm_status_cooling) :
    s.therm_controller_tick.m_therm_status ≠ therm_status_cooling := by
  intro h1
  have hv := valid_of_tick_status_ne s (by rw [h1]; exact fun h => hs h.symm)
  rw [tick_status_of_valid s hv] at h1
  unfold spec_rules at h1
  split_ifs at h1 <;> simp_all

/-- In Cool mode a tick does not take a status other than Heating to Heating. -/
theorem tick_cool_not_heating (s : Thermostat_API) (hm : s.m_therm_mode = therm_mode_cool)
    (hs : s.m_therm_status ≠ therm_status_heating) :
    s.therm_controller_tick.m_therm_status ≠ therm_status_heating := by
  intro h1
  have hv := valid_of_tick_status_ne s (by rw [h1]; exact fun h => hs h.symm)
  rw [tick_status_of_valid s hv] at h1
  unfold spec_rules at h1
  split_ifs at h1 <;> simp_all

theorem heat_gate_inv_step (s : Thermostat_API) (e : event) (hs : heat_gate_inv s)
    (he : e.holds_mode therm_mode_heat = true) : heat_gate_inv (s.step e) := by
  obtain ⟨hm, hst⟩ := hs
  cases e with
  | set_temp_margin x => exact ⟨hm, hst⟩
  | set_temp_setpoint x => exact ⟨hm, hst⟩
  | set_therm_mode m =>
    have h : m = therm_mode_heat := by simpa [event.holds_mode] using he
    exact ⟨h, hst⟩
  | sample x => exact ⟨hm, hst⟩
  | tick =>
    show heat_gate_inv s.therm_controller_tick
    exact ⟨by rw [tick_mode]; exact hm, tick_heat_not_cooling s hm hst⟩

theorem cool_gate_inv_step (s : Thermostat_API) (e : event) (hs : cool_gate_inv s)
    (he : e.holds_mode therm_mode_cool = true) : cool_gate_inv (s.step e) := by
  obtain ⟨hm, hst⟩ := hs
  cases e with
  | set_temp_margin x => exact ⟨hm, hst⟩
  | set_temp_setpoint x => exact ⟨hm, hst⟩
  | set_therm_mode m =>
    have h : m = therm_mode_cool := by simpa [event.holds_mode] using he
    exact ⟨h, hst⟩
  | sample x => exact ⟨hm, hst⟩
  | tick =>
    show cool_gate_inv s.therm_controller_tick
    exact ⟨by rw [tick_mode]; exact hm, tick_cool_not_heating s hm hst⟩

/-- C19: in Heat mode a tick does not take a status other than Cooling to Cooling, and no
sequence of ticks, samples, setpoint and margin changes (of any sign) with the mode held at
Heat does; symmetrically in Cool mode for Heating. -/
theorem mode_gating (s : Thermostat_API) (evs : List event) :
    (s.m_therm_mode = therm_mode_heat → s.m_therm_status ≠ therm_status_cooling →
      s.therm_controller_tick.get_therm_status ≠ therm_status_cooling ∧
      ((∀ e ∈ evs, e.holds_mode therm_mode_heat = true) →
        (s.run evs).get_therm_status ≠ therm_status_cooling)) ∧
    (s.m_therm_mode = therm_mode_cool → s.m_therm_status ≠ therm_status_heating →
      s.therm_controller_tick.get_therm_status ≠ therm_status_heating ∧
      ((∀ e ∈ evs, e.holds_mode therm_mode_cool = true) →
        (s.run evs).get_therm_status ≠ therm_status_heating)) := by
  constructor
  · intro hm hs
    exact ⟨tick_heat_not_cooling s hm hs, fun hevs =>
      (run_invariant heat_gate_inv (fun e => e.holds_mode therm_mode_heat = true)
        heat_gate_inv_step evs s ⟨hm, hs⟩ hevs).2⟩
  · intro hm hs
    exact ⟨tick_cool_not_heating s hm hs, fun hevs =>
      (run_invariant cool_gate_inv (fun e => e.holds_mode therm_mode_cool = true)
        cool_gate_inv_step evs s ⟨hm, hs⟩ hevs).2⟩

/-- Witness of C19: from Inactive in Heat mode, and from Cooling in Cool mode, through hot and
cold samples and a negative margin. -/
theorem mode_gating_witness :
    (heat_boundary.m_therm_mode = therm_mode_heat ∧
      heat_boundary.m_therm_status ≠ therm_status_cooling ∧
      (∀ e ∈ held_mode_steps, e.holds_mode therm_mode_heat = true) ∧
      heat_boundary.therm_controller_tick.get_therm_status ≠ therm_status_cooling ∧
      (heat_boundary.run held_mode_steps).get_therm_status ≠ therm_status_cooling) ∧
    (cooling_in_band.m_therm_mode = therm_mode_cool ∧
      cooling_in_band.m_therm_status ≠ therm_status_heating ∧
      (∀ e ∈ held_mode_steps, e.holds_mode therm_mode_cool = true) ∧
      cooling_in_band.therm_controller_tick.get_therm_status ≠ therm_status_heating ∧
      (cooling_in_band.run held_mode_steps).get_therm_status ≠ therm_status_heating) :=
  have hh : ∀ e ∈ held_mode_steps, e.holds_mode therm_mode_heat = true := by decide
  have hc : ∀ e ∈ held_mode_steps, e.holds_mode therm_mode_cool = true := by decide
  ⟨⟨rfl, by decide, hh,
      ((mode_gating heat_boundary held_mode_steps).1 rfl (by decide)).1,
      ((mode_gating heat_boundary held_mode_steps).1 rfl (by decide)).2 hh⟩,
    ⟨rfl, by decide, hc,
      ((mode_gating cooling_in_band held_mode_steps).2 rfl (by decide)).1,
      ((mode_gating cooling_in_band held_mode_steps).2 rfl (by decide)).2 hc⟩⟩

/-! ## Actuator members invoked by a tick -/

/-- With a valid sample a tick is the identity or one call of one actuator member, made in a
status that the member changes. -/
theorem tick_eq_cases (s : Thermostat_API) (hv : s.m_is_temp_valid = true) :
    s.therm_controller_tick = s ∨
      (s.therm_controller_tick = s.start_cooling ∧
        s.m_therm_status ≠ therm_status_cooling) ∨
      (s.therm_controller_tick = s.start_heating ∧
        s.m_therm_status ≠ therm_status_heating) ∨
      (s.therm_controller_tick = s.stop_heating ∧
        s.m_therm_status = therm_status_heating) ∨
      (s.therm_controller_tick = s.stop_cooling ∧
        s.m_therm_status = therm_status_cooling) := by
  have hget : s.get_temp 0 = (therm_err_none, s.m_temp) := by simp [get_temp, hv]
  unfold therm_controller_tick
  simp only [hget, get_therm_mode, get_therm_status, get_temp_setpoint, get_temp_margin]
  rw [if_neg (by decide)]
  split_ifs with c1 c2 c3 c4 c5 c6 c7 c8
  · exact absurd c3 (by simp [stop_heating])
  · exact Or.inr (Or.inr (Or.inr (Or.inl ⟨rfl, c2.symm⟩)))
  · exact Or.inr (Or.inr (Or.inr (Or.inr ⟨rfl, c4.symm⟩)))
  · exact Or.inl rfl
  · exact Or.inr (Or.inl ⟨rfl, fun h => c5.2.2 h.symm⟩)
  · exact Or.inr (Or.inr (Or.inl ⟨rfl, fun h => c6.2.2 h.symm⟩))
  · exact Or.inr (Or.inr (Or.inr (Or.inl ⟨rfl, c7.1.symm⟩)))
  · exact Or.inr (Or.inr (Or.inr (Or.inr ⟨rfl, c8.1.symm⟩)))
  · exact Or.inl rfl

/-- A tick either invokes no actuator member and leaves the status, or invokes exactly one,
which writes a status different from the one before. -/
theorem tick_log_cases (s : Thermostat_API) :
    (s.therm_controller_tick.actuator_calls = s.actuator_calls ∧
        s.therm_controller_tick.m_therm_status = s.m_therm_status) ∨
      ∃ c : actuator_call,
        s.therm_controller_tick.actuator_calls = s.actuator_calls ++ [c] ∧
        s.therm_controller_tick.m_therm_status = call_status c ∧
        call_status c ≠ s.m_therm_status := by
  cases hv : s.m_is_temp_valid with
  | false =>
    rw [tick_of_not_valid s hv]
    exact Or.inl ⟨rfl, rfl⟩
  | true =>
    rcases tick_eq_cases s hv with h | ⟨h, hs⟩ | ⟨h, hs⟩ | ⟨h, hs⟩ | ⟨h, hs⟩
    · rw [h]; exact Or.inl ⟨rfl, rfl⟩
    · rw [h]
      exact Or.inr ⟨actuator_call.start_cooling, rfl, rfl, fun h1 => hs h1.symm⟩
    · rw [h]
      exact Or.inr ⟨actuator_call.start_heating, rfl, rfl, fun h1 => hs h1.symm⟩
    · rw [h]
      exact Or.inr ⟨actuator_call.stop_heating, rfl, rfl, by
        rw [hs]; exact fun h1 => therm_status.noConfusion h1⟩
    · rw [h]
      exact Or.inr ⟨actuator_call.stop_cooling, rfl, rfl, by
        rw [hs]; exact fun h1 => therm_status.noConfusion h1⟩

/-- The log after a tick is the log before followed by the calls of the tick. -/
theorem tick_calls_append (s : Thermostat_API) :
    s.therm_controller_tick.actuator_calls = s.actuator_calls ++ s.tick_calls := by
  rcases tick_log_cases s with ⟨h, _⟩ | ⟨c, h, _, _⟩ <;> simp [tick_calls, h]

/-- C20: the log after a tick is the log before followed by the calls of the tick, which are
at most one call; there is a call exactly when the status after differs from the status
before; the status after is the one the member called writes (start_heating Heating,
start_cooling Cooling, either stop Inactive); a tick from Heating to Cooling calls
start_cooling only, and a tick from Cooling to Heating calls start_heating only. -/
theorem tick_actuator_calls (s : Thermostat_API) :
    s.therm_controller_tick.actuator_calls = s.actuator_calls ++ s.tick_calls ∧
      s.tick_calls.length ≤ 1 ∧
      (s.tick_calls ≠ [] ↔
        s.therm_controller_tick.get_therm_status ≠ s.get_therm_status) ∧
      (∀ c ∈ s.tick_calls, s.therm_controller_tick.get_therm_status = call_status c) ∧
      (s.start_heating.get_therm_status = call_status actuator_call.start_heating ∧
        s.stop_heating.get_therm_status = call_status actuator_call.stop_heating ∧
        s.start_cooling.get_therm_status = call_status actuator_call.start_cooling ∧
        s.stop_cooling.get_therm_status = call_status actuator_call.stop_cooling) ∧
      (s.get_therm_status = therm_status_heating →
        s.therm_controller_tick.get_therm_status = therm_status_cooling →
        s.tick_calls = [actuator_call.start_cooling]) ∧
      (s.get_therm_status = therm_status_cooling →
        s.therm_controller_tick.get_therm_status = therm_status_heating →
        s.tick_calls = [actuator_call.start_heating]) := by
  refine ⟨tick_calls_append s, ?_, ?_, ?_, ⟨rfl, rfl, rfl, rfl⟩, ?_, ?_⟩ <;>
    rcases tick_log_cases s with ⟨hlog, hst⟩ | ⟨c, hlog, hst, hne⟩
  · simp [tick_calls, hlog]
  · simp [tick_calls, hlog]
  · simp [tick_calls, hlog, get_therm_status, hst]
  · simp only [tick_calls, hlog, get_therm_status, hst]
    simpa using hne
  · simp [tick_calls, hlog]
  · intro c1 hc1
    have : c1 = c := by simpa [tick_calls, hlog] using hc1
    rw [this]; exact hst
  · intro h0 h1
    rw [get_therm_status] at h0 h1
    rw [hst, h0] at h1
    exact absurd h1 (by decide)
  · intro _ h1
    rw [get_therm_status, hst] at h1
    cases c <;> first | exact absurd h1 (by decide) | simp [tick_calls, hlog]
  · intro h0 h1
    rw [get_therm_status] at h0 h1
    rw [hst, h0] at h1
    exact absurd h1 (by decide)
  · intro _ h1
    rw [get_therm_status, hst] at h1
    cases c <;> first | exact absurd h1 (by decide) | simp [tick_calls, hlog]

/-- Witness of C20 at the scenario setpoint 60, margin 1, Auto, Heating, sample 69: the tick
to Cooling calls start_cooling and no stop member. -/
theorem tick_actuator_calls_witness :
    auto_heating_hot.get_therm_status = therm_status_heating ∧
      auto_heating_hot.therm_controller_tick.get_therm_status = therm_status_cooling ∧
      auto_heating_hot.tick_calls = [actuator_call.start_cooling] ∧
      auto_heating_hot.therm_controller_tick.actuator_calls
        = [actuator_call.start_cooling] := by
  have h1 : auto_heating_hot.therm_controller_tick.get_therm_status
      = therm_status_cooling := by
    show auto_heating_hot.therm_controller_tick.m_therm_status = therm_status_cooling
    rw [tick_status_of_valid _ rfl]
    have hn : (69 : ℚ) > 60 + 1 := by norm_num
    simp [spec_rules, auto_heating_hot, construct, hn]
  have h2 := (tick_actuator_calls auto_heating_hot).2.2.2.2.2.1 rfl h1
  have h3 := (tick_actuator_calls auto_heating_hot).1
  rw [h2] at h3
  exact ⟨rfl, h1, h2, h3⟩

/-! ## What a tick leaves, leftover statuses, negative margins, the constant error -/

/-- A tick does not write the port. -/
theorem tick_port (s : Thermostat_API) :
    s.therm_controller_tick.m_temp_port = s.m_temp_port := by
  simp only [therm_controller_tick, get_temp, get_therm_mode, get_therm_status,
    get_temp_setpoint, get_temp_margin, start_heating, stop_heating, start_cooling,
    stop_cooling]
  split_ifs <;> rfl

/-- C21: a tick leaves the mode, the setpoint, the margin, the stored sample and its validity
flag (and the port) as they were: the state after the tick is the state before with the
status, the controller error and the ghost call log replaced. -/
theorem tick_frame (s : Thermostat_API) :
    s.therm_controller_tick.get_therm_mode = s.get_therm_mode ∧
      s.therm_controller_tick.get_temp_setpoint = s.get_temp_setpoint ∧
      s.therm_controller_tick.get_temp_margin = s.get_temp_margin ∧
      s.therm_controller_tick.m_temp = s.m_temp ∧
      s.therm_controller_tick.m_is_temp_valid = s.m_is_temp_valid ∧
      s.therm_controller_tick =
        { s with
          m_therm_status := s.therm_controller_tick.m_therm_status
          m_therm_cont_err := s.therm_controller_tick.m_therm_cont_err
          actuator_calls := s.therm_controller_tick.actuator_calls } := by
  refine ⟨tick_mode s, tick_setpoint s, tick_margin s, tick_temp s, tick_valid s, ?_⟩
  have h1 := tick_mode s
  have h2 := tick_setpoint s
  have h3 := tick_margin s
  have h4 := tick_temp s
  have h5 := tick_valid s
  have h6 := tick_port s
  revert h1 h2 h3 h4 h5 h6
  generalize s.therm_controller_tick = t
  intro h1 h2 h3 h4 h5 h6
  cases t
  cases s
  simp_all

/-- State reached by `cool_then_heat`: Heat mode, Cooling, sample 100 above the setpoint 72. -/
theorem cool_then_heat_state :
    (construct.run cool_then_heat).m_is_temp_valid = true ∧
      0 ≤ (construct.run cool_then_heat).m_temp_margin ∧
      (construct.run cool_then_heat).m_therm_mode = therm_mode_heat ∧
      (construct.run cool_then_heat).m_therm_status = therm_status_cooling ∧
      (construct.run cool_then_heat).m_temp > (construct.run cool_then_heat).m_temp_setpoint := by
  refine ⟨?_, ?_, rfl, ?_, ?_⟩
  · show ((construct.set_therm_mode therm_mode_cool).temp_UDP_listener_recv
      100).therm_controller_tick.m_is_temp_valid = true
    rw [tick_valid]; rfl
  · show 0 ≤ ((construct.set_therm_mode therm_mode_cool).temp_UDP_listener_recv
      100).therm_controller_tick.m_temp_margin
    rw [tick_margin]
    show (0 : ℚ) ≤ 1
    norm_num
  · show ((construct.set_therm_mode therm_mode_cool).temp_UDP_listener_recv
      100).therm_controller_tick.m_therm_status = therm_status_cooling
    rw [tick_status_of_valid _ rfl]
    have hn : (100 : ℚ) > 72 + 1 := by norm_num
    simp [spec_rules, construct, set_therm_mode, temp_UDP_listener_recv, hn]
  · show ((construct.set_therm_mode therm_mode_cool).temp_UDP_listener_recv
        100).therm_controller_tick.m_temp >
      ((construct.set_therm_mode therm_mode_cool).temp_UDP_listener_recv
        100).therm_controller_tick.m_temp_setpoint
    rw [tick_temp, tick_setpoint]
    show (100 : ℚ) > 72
    norm_num

/-- State reached by `heat_then_cool`: Cool mode, Heating, sample 40 below the setpoint 72. -/
theorem heat_then_cool_state :
    (construct.run heat_then_cool).m_is_temp_valid = true ∧
      0 ≤ (construct.run heat_then_cool).m_temp_margin ∧
      (construct.run heat_then_cool).m_therm_mode = therm_mode_cool ∧
      (construct.run heat_then_cool).m_therm_status = therm_status_heating ∧
      (construct.run heat_then_cool).m_temp < (construct.run heat_then_cool).m_temp_setpoint := by
  refine ⟨?_, ?_, rfl, ?_, ?_⟩
  · show ((construct.set_therm_mode therm_mode_heat).temp_UDP_listener_recv
      40).therm_controller_tick.m_is_temp_valid = true
    rw [tick_valid]; rfl
  · show 0 ≤ ((construct.set_therm_mode therm_mode_heat).temp_UDP_listener_recv
      40).therm_controller_tick.m_temp_margin
    rw [tick_margin]
    show (0 : ℚ) ≤ 1
    norm_num
  · show ((construct.set_therm_mode therm_mode_heat).temp_UDP_listener_recv
      40).therm_controller_tick.m_therm_status = therm_status_heating
    rw [tick_status_of_valid _ rfl]
    have hn : (40 : ℚ) < 72 - 1 := by norm_num
    simp [spec_rules, construct, set_therm_mode, temp_UDP_listener_recv, hn]
  · show ((construct.set_therm_mode therm_mode_heat).temp_UDP_listener_recv
        40).therm_controller_tick.m_temp <
      ((construct.set_therm_mode therm_mode_heat).temp_UDP_listener_recv
        40).therm_controller_tick.m_temp_setpoint
    rw [tick_temp, tick_setpoint]
    show (40 : ℚ) < 72
    norm_num

/-- C22: with a valid sample and a margin that is not negative, a tick in Heat mode with status
Cooling leaves the status Cooling when temp > setpoint, and a tick in Cool mode with status
Heating leaves the status Heating when temp < setpoint; both kinds of state are reached from
the constructor by starting the actuator in one mode and then setting the other. -/
theorem leftover_status_kept (s : Thermostat_API) :
    (s.m_is_temp_valid = true → 0 ≤ s.m_temp_margin →
      s.m_therm_mode = therm_mode_heat → s.m_therm_status = therm_status_cooling →
      s.m_temp > s.m_temp_setpoint →
      s.therm_controller_tick.get_therm_status = therm_status_cooling) ∧
    (s.m_is_temp_valid = true → 0 ≤ s.m_temp_margin →
      s.m_therm_mode = therm_mode_cool → s.m_therm_status = therm_status_heating →
      s.m_temp < s.m_temp_setpoint →
      s.therm_controller_tick.get_therm_status = therm_status_heating) ∧
    ((construct.run cool_then_heat).m_is_temp_valid = true ∧
      0 ≤ (construct.run cool_then_heat).m_temp_margin ∧
      (construct.run cool_then_heat).m_therm_mode = therm_mode_heat ∧
      (construct.run cool_then_heat).m_therm_status = therm_status_cooling ∧
      (construct.run cool_then_heat).m_temp > (construct.run cool_then_heat).m_temp_setpoint) ∧
    ((construct.run heat_then_cool).m_is_temp_valid = true ∧
      0 ≤ (construct.run heat_then_cool).m_temp_margin ∧
      (construct.run heat_then_cool).m_therm_mode = therm_mode_cool ∧
      (construct.run heat_then_cool).m_therm_status = therm_status_heating ∧
      (construct.run heat_then_cool).m_temp < (construct.run heat_then_cool).m_temp_setpoint) := by
  refine ⟨fun hv hmargin hm hs ht => ?_, fun hv hmargin hm hs ht => ?_,
    cool_then_heat_state, heat_then_cool_state⟩
  · show s.therm_controller_tick.m_therm_status = therm_status_cooling
    rw [tick_status_of_valid s hv, hm, hs]
    have h3 : ¬ s.m_temp < s.m_temp_setpoint - s.m_temp_margin := by
      rw [not_lt]; linarith
    have h5 : ¬ s.m_temp ≤ s.m_temp_setpoint := not_le.mpr ht
    simp [spec_rules, h3, h5]
  · show s.therm_controller_tick.m_therm_status = therm_status_heating
    rw [tick_status_of_valid s hv, hm, hs]
    have h2 : ¬ s.m_temp > s.m_temp_setpoint + s.m_temp_margin := by
      rw [not_lt]; linarith
    have h4 : ¬ s.m_temp ≥ s.m_temp_setpoint := not_le.mpr ht
    simp [spec_rules, h2, h4]

/-- Witness of C22 at the two reached states: cooling keeps running in Heat mode at 100 and
heating keeps running in Cool mode at 40, setpoint 72. -/
theorem leftover_status_kept_witness :
    (construct.run cool_then_heat).therm_controller_tick.get_therm_status
        = therm_status_cooling ∧
      (construct.run heat_then_cool).therm_controller_tick.get_therm_status
        = therm_status_heating :=
  have hc := cool_then_heat_state
  have hh := heat_then_cool_state
  ⟨(leftover_status_kept (construct.run cool_then_heat)).1 hc.1 hc.2.1
      hc.2.2.1 hc.2.2.2.1 hc.2.2.2.2,
    (leftover_status_kept (construct.run heat_then_cool)).2.1 hh.1 hh.2.1
      hh.2.2.1 hh.2.2.2.1 hh.2.2.2.2⟩

theorem negative_margin_inv_tick (s : Thermostat_API) (h : negative_margin_inv s) :
    negative_margin_inv s.therm_controller_tick := by
  obtain ⟨hv, hm, hsp, hmg, ht⟩ := h
  exact ⟨by rw [tick_valid]; exact hv, by rw [tick_mode]; exact hm,
    by rw [tick_setpoint]; exact hsp, by rw [tick_margin]; exact hmg,
    by rw [tick_temp]; exact ht⟩

theorem negative_margin_inv_loop (s : Thermostat_API) (h : negative_margin_inv s) :
    ∀ n : Nat, negative_margin_inv (therm_controller n s)
  | 0 => h
  | n + 1 => by
    show negative_margin_inv (therm_controller_tick^[n + 1] s)
    rw [Function.iterate_succ_apply']
    exact negative_margin_inv_tick _ (negative_margin_inv_loop s h n)

/-- In Heat mode with setpoint 70, margin -5 and sample 72, a tick takes Inactive to Heating
and Heating to Inactive. -/
theorem negative_margin_tick_status (s : Thermostat_API) (h : negative_margin_inv s) :
    (s.m_therm_status = therm_status_inactive →
        s.therm_controller_tick.m_therm_status = therm_status_heating) ∧
      (s.m_therm_status = therm_status_heating →
        s.therm_controller_tick.m_therm_status = therm_status_inactive) := by
  obtain ⟨hv, hm, hsp, hmg, ht⟩ := h
  have hstop : (70 : ℚ) ≤ 72 := by norm_num
  constructor
  · intro hs
    rw [tick_status_of_valid s hv, hm, hsp, hmg, ht, hs]
    simp [spec_rules]
    norm_num
  · intro hs
    rw [tick_status_of_valid s hv, hm, hsp, hmg, ht, hs]
    simp [spec_rules, hstop]

/-- Status after `n` ticks from the state reached by `negative_margin_history`. -/
theorem negative_margin_loop_status :
    ∀ n : Nat, (therm_controller n (construct.run negative_margin_history)).m_therm_status =
      if n % 2 = 0 then therm_status_inactive else therm_status_heating
  | 0 => rfl
  | n + 1 => by
    have ih := negative_margin_loop_status n
    have hinv := negative_margin_inv_loop (construct.run negative_margin_history)
      ⟨rfl, rfl, rfl, rfl, rfl⟩ n
    have hstep := negative_margin_tick_status _ hinv
    show (therm_controller_tick^[n + 1] (construct.run negative_margin_history)).m_therm_status
      = _
    rw [Function.iterate_succ_apply']
    rcases Nat.mod_two_eq_zero_or_one n with h | h
    · have h1 : (n + 1) % 2 = 1 := by omega
      rw [h] at ih
      rw [h1]
      exact hstep.1 ih
    · have h1 : (n + 1) % 2 = 0 := by omega
      rw [h] at ih
      rw [h1]
      exact hstep.2 ih

/-- C23: the state reached from the constructor by set_therm_mode Heat, set_temp_setpoint 70,
set_temp_margin -5 and the sample 72 has the negative margin stored and status Inactive; from
it the loop of ticks alone gives Inactive after an even number of ticks and Heating after an
odd number, so every tick changes the status. -/
theorem negative_margin_oscillates (n : Nat) :
    ((construct.run negative_margin_history).get_therm_mode = therm_mode_heat ∧
      (construct.run negative_margin_history).get_temp_setpoint = 70 ∧
      (construct.run negative_margin_history).get_temp_margin = -5 ∧
      (construct.run negative_margin_history).get_temp 0 = (therm_err_none, 72) ∧
      (construct.run negative_margin_history).get_therm_status = therm_status_inactive) ∧
    (therm_controller n (construct.run negative_margin_history)).get_therm_status =
      (if n % 2 = 0 then therm_status_inactive else therm_status_heating) ∧
    (therm_controller (n + 1) (construct.run negative_margin_history)).get_therm_status ≠
      (therm_controller n (construct.run negative_margin_history)).get_therm_status := by
  refine ⟨⟨rfl, rfl, rfl, rfl, rfl⟩, negative_margin_loop_status n, ?_⟩
  show (therm_controller (n + 1) (construct.run negative_margin_history)).m_therm_status ≠
    (therm_controller n (construct.run negative_margin_history)).m_therm_status
  rw [negative_margin_loop_status (n + 1), negative_margin_loop_status n]
  rcases Nat.mod_two_eq_zero_or_one n with h | h
  · have h1 : (n + 1) % 2 = 1 := by omega
    rw [h, h1]; decide
  · have h1 : (n + 1) % 2 = 0 := by omega
    rw [h, h1]; decide

/-- Every step leaves the controller error or stores NoTemperatureData. -/
theorem step_err (s : Thermostat_API) (e : event) :
    (s.step e).m_therm_cont_err = s.m_therm_cont_err ∨
      (s.step e).m_therm_cont_err = therm_err_no_temp_data := by
  cases e with
  | set_temp_margin x => exact Or.inl rfl
  | set_temp_setpoint x => exact Or.inl rfl
  | set_therm_mode m => exact Or.inl rfl
  | sample x => exact Or.inl rfl
  | tick =>
    show s.therm_controller_tick.m_therm_cont_err = s.m_therm_cont_err ∨
      s.therm_controller_tick.m_therm_cont_err = therm_err_no_temp_data
    cases hv : s.m_is_temp_valid with
    | true => exact Or.inl (tick_err_of_valid s hv)
    | false => rw [tick_of_not_valid s hv]; exact Or.inr rfl

/-- C24: in every state reached from the constructor by setter calls, accepted samples and
ticks, `get_therm_cont_err` returns NoTemperatureData; and in any state, every step leaves the
controller error as it was or stores NoTemperatureData, so none stores None. -/
theorem err_constant (evs : List event) (s : Thermostat_API) (e : event) :
    (construct.run evs).get_therm_cont_err = therm_err_no_temp_data ∧
      ((s.step e).get_therm_cont_err = s.get_therm_cont_err ∨
        (s.step e).get_therm_cont_err = therm_err_no_temp_data) := by
  refine ⟨?_, step_err s e⟩
  exact run_invariant (fun s1 => s1.m_therm_cont_err = therm_err_no_temp_data)
    (fun _ => True)
    (fun s1 e1 h1 _ => by
      rcases step_err s1 e1 with h | h
      · rw [h]; exact h1
      · exact h)
    evs construct rfl (fun _ _ => trivial)

end Thermostat_API

/-! ## The binary32 model: rounding, comparisons and the thresholds of one tick -/

namespace binary32

theorem log2_fuel_spec : ∀ (fuel n : ℕ), n ≤ fuel → n ≠ 0 →
    2 ^ log2_fuel fuel n ≤ n ∧ n < 2 ^ (log2_fuel fuel n + 1)
  | 0, n, h, h0 => absurd (Nat.le_zero.mp h) h0
  | fuel + 1, n, h, h0 => by
    unfold log2_fuel
    by_cases h2 : n < 2
    · rw [if_pos h2]
      have : n = 1 := by omega
      subst this
      simp
    · rw [if_neg h2]
      obtain ⟨a, b⟩ := log2_fuel_spec fuel (n / 2) (by omega) (by omega)
      have e1 : ∀ j : ℕ, 2 ^ (j + 1) = 2 * 2 ^ j := fun j => by rw [pow_succ]; ring
      rw [e1] at b
      rw [e1, e1]
      constructor <;> omega

/-- Significand before rounding, remainder and exponent of a magnitude. -/
theorem round_nat_parts (n : ℕ) :
    ∃ k q1 : ℕ, (round_nat n).1 * 2 ^ (round_nat n).2 = q1 * 2 ^ k ∧
      (round_nat n).1 < 16777216 ∧
      n / 2 ^ k ≤ q1 ∧ q1 ≤ n / 2 ^ k + 1 ∧ (n % 2 ^ k = 0 → q1 = n / 2 ^ k) ∧
      n / 2 ^ k < 16777216 ∧ (0 < k → 8388608 ≤ n / 2 ^ k) ∧
      ((round_nat n).2 = k ∨ ((round_nat n).2 = k + 1 ∧ q1 = 16777216)) := by
  refine ⟨log2_fuel n n - 23, ?_⟩
  have hq : n / 2 ^ (log2_fuel n n - 23) < 16777216 ∧
      (0 < log2_fuel n n - 23 → 8388608 ≤ n / 2 ^ (log2_fuel n n - 23)) := by
    by_cases h0 : n = 0
    · subst h0
      simp [log2_fuel]
    · obtain ⟨a, b⟩ := log2_fuel_spec n n le_rfl h0
      by_cases hL : log2_fuel n n ≤ 23
      · have hk : log2_fuel n n - 23 = 0 := by omega
        rw [hk]
        have : (2 : ℕ) ^ (log2_fuel n n + 1) ≤ 2 ^ 24 :=
          Nat.pow_le_pow_right (by norm_num) (by omega)
        constructor
        · simp; omega
        · intro h; exact absurd h (lt_irrefl 0)
      · have hL1 : log2_fuel n n = (log2_fuel n n - 23) + 23 := by omega
        have hb : n < 2 ^ (log2_fuel n n - 23) * 16777216 := by
          have : (2 : ℕ) ^ (log2_fuel n n + 1) = 2 ^ (log2_fuel n n - 23) * 16777216 := by
            conv_lhs => rw [hL1]
            rw [show log2_fuel n n - 23 + 23 + 1 = (log2_fuel n n - 23) + 24 by omega, pow_add]
            norm_num
          omega
        have ha : 2 ^ (log2_fuel n n - 23) * 8388608 ≤ n := by
          have : (2 : ℕ) ^ (log2_fuel n n) = 2 ^ (log2_fuel n n - 23) * 8388608 := by
            conv_lhs => rw [hL1]
            rw [pow_add]
            norm_num
          omega
        have hpos : 0 < 2 ^ (log2_fuel n n - 23) := by positivity
        constructor
        · exact (Nat.div_lt_iff_lt_mul hpos).mpr (by rw [mul_comm] at hb; exact hb)
        · intro _
          exact (Nat.le_div_iff_mul_le hpos).mpr (by rw [mul_comm] at ha; exact ha)
  unfold round_nat
  simp only
  set k := log2_fuel n n - 23 with hk
  set q := n / 2 ^ k with hqd
  set r := n % 2 ^ k with hr
  by_cases c1 : 2 * r < 2 ^ k
  · rw [if_pos c1]
    have hne : q ≠ 16777216 := by omega
    rw [if_neg hne]
    exact ⟨q, rfl, hq.1, le_rfl, by omega, fun _ => rfl, hq.1, hq.2, Or.inl rfl⟩
  · rw [if_neg c1]
    have hr0 : r ≠ 0 := by
      intro h0
      apply c1
      rw [h0]
      positivity
    by_cases c2 : 2 ^ k < 2 * r
    · rw [if_pos c2]
      by_cases c3 : q + 1 = 16777216
      · rw [if_pos c3]
        refine ⟨16777216, ?_, by norm_num, by omega, by omega, fun h => absurd h hr0,
          hq.1, hq.2, Or.inr ⟨rfl, rfl⟩⟩
        show 8388608 * 2 ^ (k + 1) = 16777216 * 2 ^ k
        rw [pow_succ]; ring
      · rw [if_neg c3]
        exact ⟨q + 1, rfl, by omega, by omega, le_rfl, fun h => absurd h hr0, hq.1, hq.2,
          Or.inl rfl⟩
    · rw [if_neg c2]
      by_cases c4 : q % 2 = 0
      · rw [if_pos c4]
        have hne : q ≠ 16777216 := by omega
        rw [if_neg hne]
        exact ⟨q, rfl, hq.1, le_rfl, by omega, fun h => absurd h hr0, hq.1, hq.2, Or.inl rfl⟩
      · rw [if_neg c4]
        by_cases c3 : q + 1 = 16777216
        · rw [if_pos c3]
          refine ⟨16777216, ?_, by norm_num, by omega, by omega, fun h => absurd h hr0,
            hq.1, hq.2, Or.inr ⟨rfl, rfl⟩⟩
          show 8388608 * 2 ^ (k + 1) = 16777216 * 2 ^ k
          rw [pow_succ]; ring
        · rw [if_neg c3]
          exact ⟨q + 1, rfl, by omega, by omega, le_rfl, fun h => absurd h hr0, hq.1, hq.2,
            Or.inl rfl⟩


theorem representable_lt (n : ℕ) (h : representable n) : n < 2 ^ 277 := by
  obtain ⟨m, e, hm, he, rfl⟩ := h
  have h1 : (2 : ℕ) ^ e ≤ 2 ^ 253 := Nat.pow_le_pow_right (by norm_num) (by omega)
  calc m * 2 ^ e ≤ 16777215 * 2 ^ 253 := Nat.mul_le_mul (by omega) h1
    _ < 2 ^ 277 := by norm_num

/-- A representable magnitude at most `n` is at most `n` rounded down to the exponent `k`. -/
theorem representable_le_down (n k ρ : ℕ) (hρ : representable ρ)
    (hk : 0 < k → 8388608 ≤ n / 2 ^ k) (h : ρ ≤ n) : ρ ≤ n / 2 ^ k * 2 ^ k := by
  obtain ⟨m, e, hm, he, rfl⟩ := hρ
  have hpos : 0 < 2 ^ k := by positivity
  by_cases hke : k ≤ e
  · obtain ⟨d, rfl⟩ := Nat.exists_eq_add_of_le hke
    have e1 : m * 2 ^ (k + d) = m * 2 ^ d * 2 ^ k := by rw [pow_add]; ring
    rw [e1] at h ⊢
    exact Nat.mul_le_mul_right _ ((Nat.le_div_iff_mul_le hpos).mpr h)
  · have hk0 : 0 < k := by omega
    have h1 : (2 : ℕ) ^ e * 2 ≤ 2 ^ k := by
      rw [← pow_succ]
      exact Nat.pow_le_pow_right (by norm_num) (by omega)
    calc m * 2 ^ e ≤ 16777216 * 2 ^ e := Nat.mul_le_mul_right _ (by omega)
      _ = 8388608 * (2 ^ e * 2) := by ring
      _ ≤ 8388608 * 2 ^ k := Nat.mul_le_mul_left _ h1
      _ ≤ n / 2 ^ k * 2 ^ k := Nat.mul_le_mul_right _ (hk hk0)

/-- A representable magnitude at least `n` is at least the rounded value of `n`. -/
theorem representable_ge_up (n k q1 ρ : ℕ) (hρ : representable ρ)
    (hk : 0 < k → 8388608 ≤ n / 2 ^ k) (hq1 : q1 ≤ n / 2 ^ k + 1)
    (hexact : n % 2 ^ k = 0 → q1 = n / 2 ^ k) (h : n ≤ ρ) : q1 * 2 ^ k ≤ ρ := by
  have hpos : 0 < 2 ^ k := by positivity
  have hdm : 2 ^ k * (n / 2 ^ k) + n % 2 ^ k = n := Nat.div_add_mod n (2 ^ k)
  by_cases hr : n % 2 ^ k = 0
  · rw [hexact hr]
    rw [hr] at hdm
    calc n / 2 ^ k * 2 ^ k = n := by rw [mul_comm]; omega
      _ ≤ ρ := h
  · obtain ⟨m, e, hm, he, rfl⟩ := hρ
    by_cases hke : k ≤ e
    · obtain ⟨d, rfl⟩ := Nat.exists_eq_add_of_le hke
      have e1 : m * 2 ^ (k + d) = m * 2 ^ d * 2 ^ k := by rw [pow_add]; ring
      rw [e1] at h ⊢
      apply Nat.mul_le_mul_right
      have h2 : n / 2 ^ k < m * 2 ^ d := by
        by_contra hc
        have hc1 : m * 2 ^ d ≤ n / 2 ^ k := by omega
        have hc2 : m * 2 ^ d * 2 ^ k ≤ n / 2 ^ k * 2 ^ k := Nat.mul_le_mul_right _ hc1
        have hc3 : n / 2 ^ k * 2 ^ k = 2 ^ k * (n / 2 ^ k) := mul_comm _ _
        omega
      omega
    · exfalso
      have hk0 : 0 < k := by omega
      have h1 : (2 : ℕ) ^ e * 2 ≤ 2 ^ k := by
        rw [← pow_succ]
        exact Nat.pow_le_pow_right (by norm_num) (by omega)
      have h3 : m * 2 ^ e ≤ n / 2 ^ k * 2 ^ k :=
        calc m * 2 ^ e ≤ 16777216 * 2 ^ e := Nat.mul_le_mul_right _ (by omega)
          _ = 8388608 * (2 ^ e * 2) := by ring
          _ ≤ 8388608 * 2 ^ k := Nat.mul_le_mul_left _ h1
          _ ≤ n / 2 ^ k * 2 ^ k := Nat.mul_le_mul_right _ (hk hk0)
      have hc3 : n / 2 ^ k * 2 ^ k = 2 ^ k * (n / 2 ^ k) := mul_comm _ _
      have : 0 < n % 2 ^ k := Nat.pos_of_ne_zero hr
      omega

theorem f32_units (s : Bool) (m e : ℕ) (hm : m < 16777216) (he : e < 254) :
    (f32 s m e).units = if s then -((m * 2 ^ e : ℕ) : ℤ) else ((m * 2 ^ e : ℕ) : ℤ) := by
  cases s <;> simp [f32, float.units, Nat.mod_eq_of_lt hm, Nat.mod_eq_of_lt he]

theorem f32_key (s : Bool) (m e : ℕ) (hm : m < 16777216) (he : e < 254) :
    (f32 s m e).key = some (if s then -((m * 2 ^ e : ℕ) : ℤ) else ((m * 2 ^ e : ℕ) : ℤ)) := by
  rw [← f32_units s m e hm he]
  rfl

/-- Key of a rounded magnitude: a magnitude `M` with the sign, where `M` is at least every
representable magnitude below `n` and at most every representable magnitude above `n`. -/
theorem round_mag_key (s : Bool) (n : ℕ) :
    ∃ M : ℕ, (round_mag s n).key = some (if s then -(M : ℤ) else (M : ℤ)) ∧
      (∀ ρ, representable ρ → ρ ≤ n → ρ ≤ M) ∧
      (∀ ρ, representable ρ → n ≤ ρ → M ≤ ρ) := by
  obtain ⟨k, q1, hval, hm, hlo, hhi, hexact, hq, hk, hexp⟩ := round_nat_parts n
  have hpos : 0 < 2 ^ k := by positivity
  have hup : ∀ ρ, representable ρ → n ≤ ρ → q1 * 2 ^ k ≤ ρ := fun ρ hρ h =>
    representable_ge_up n k q1 ρ hρ hk hhi hexact h
  have hdown : ∀ ρ, representable ρ → ρ ≤ n → ρ ≤ q1 * 2 ^ k := fun ρ hρ h =>
    le_trans (representable_le_down n k ρ hρ hk h) (Nat.mul_le_mul_right _ hlo)
  unfold round_mag
  by_cases he : (round_nat n).2 < 254
  · rw [if_pos he, f32_key s _ _ hm he, hval]
    exact ⟨q1 * 2 ^ k, rfl, hdown, hup⟩
  · rw [if_neg he]
    refine ⟨2 ^ 277, by cases s <;> rfl, ?_, ?_⟩
    · intro ρ hρ _
      exact le_of_lt (representable_lt ρ hρ)
    · intro ρ hρ h
      exfalso
      have h1 := hup ρ hρ h
      have h2 := representable_lt ρ hρ
      have hbig : 2 ^ 277 ≤ q1 * 2 ^ k := by
        rcases hexp with h3 | ⟨h3, h4⟩
        · have hk254 : 254 ≤ k := by omega
          have : (2 : ℕ) ^ 254 ≤ 2 ^ k := Nat.pow_le_pow_right (by norm_num) hk254
          calc 2 ^ 277 = 8388608 * 2 ^ 254 := by norm_num
            _ ≤ 8388608 * 2 ^ k := Nat.mul_le_mul_left _ this
            _ ≤ q1 * 2 ^ k := Nat.mul_le_mul_right _ (le_trans (hk (by omega)) hlo)
        · have hk253 : 253 ≤ k := by omega
          have : (2 : ℕ) ^ 253 ≤ 2 ^ k := Nat.pow_le_pow_right (by norm_num) hk253
          rw [h4]
          calc 2 ^ 277 = 16777216 * 2 ^ 253 := by norm_num
            _ ≤ 16777216 * 2 ^ k := Nat.mul_le_mul_left _ this
      omega


theorem representable_zero : representable 0 := ⟨0, 0, by norm_num, by norm_num, by simp⟩

/-- Key of a rounded exact value: at least every representable value below the exact value
and at most every representable value above it. -/
theorem round_int_key (zs : Bool) (z : ℤ) :
    ∃ K : ℤ, (round_int zs z).key = some K ∧
      (∀ ρ : ℤ, representable ρ.natAbs → ρ ≤ z → ρ ≤ K) ∧
      (∀ ρ : ℤ, representable ρ.natAbs → z ≤ ρ → K ≤ ρ) := by
  unfold round_int
  rcases lt_trichotomy z 0 with hz | hz | hz
  · have hs : (if z = 0 then zs else decide (z < 0)) = true := by
      rw [if_neg (ne_of_lt hz)]; exact decide_eq_true hz
    rw [hs]
    obtain ⟨M, hkey, hdown, hup⟩ := round_mag_key true z.natAbs
    refine ⟨-(M : ℤ), by simpa using hkey, fun ρ hρ h => ?_, fun ρ hρ h => ?_⟩
    · have := hup ρ.natAbs hρ (by omega)
      omega
    · by_cases h0 : 0 ≤ ρ
      · omega
      · have := hdown ρ.natAbs hρ (by omega)
        omega
  · subst hz
    obtain ⟨M, hkey, hdown, hup⟩ := round_mag_key (if (0 : ℤ) = 0 then zs else decide ((0 : ℤ) < 0))
      (0 : ℤ).natAbs
    have hM : M = 0 := by
      have := hup 0 representable_zero (by simp)
      omega
    subst hM
    refine ⟨0, ?_, fun ρ _ h => h, fun ρ _ h => h⟩
    rw [hkey]
    split <;> simp
  · have hs : (if z = 0 then zs else decide (z < 0)) = false := by
      rw [if_neg (ne_of_gt hz)]; exact decide_eq_false (by omega)
    rw [hs]
    obtain ⟨M, hkey, hdown, hup⟩ := round_mag_key false z.natAbs
    refine ⟨(M : ℤ), by simpa using hkey, fun ρ hρ h => ?_, fun ρ hρ h => ?_⟩
    · by_cases h0 : ρ ≤ 0
      · omega
      · have := hdown ρ.natAbs hρ (by omega)
        omega
    · have := hup ρ.natAbs hρ (by omega)
      omega

theorem le_iff (a b : float) :
    a.le b = true ↔ ∃ x y, a.key = some x ∧ b.key = some y ∧ x ≤ y := by
  unfold float.le
  cases a.key <;> cases b.key <;> simp

theorem lt_iff (a b : float) :
    a.lt b = true ↔ ∃ x y, a.key = some x ∧ b.key = some y ∧ x < y := by
  unfold float.lt
  cases a.key <;> cases b.key <;> simp

theorem units_representable (a : float) : representable a.units.natAbs := by
  cases a with
  | nan => exact representable_zero
  | inf s => exact representable_zero
  | finite s m e =>
    refine ⟨m.val, e.val, m.isLt, e.isLt, ?_⟩
    cases s with
    | false => exact Int.natAbs_ofNat _
    | true =>
      show (-((m.val * 2 ^ e.val : ℕ) : ℤ)).natAbs = _
      rw [Int.natAbs_neg]
      exact Int.natAbs_ofNat _

theorem units_lt (a : float) : a.units < ((2 ^ 277 : ℕ) : ℤ) ∧ -((2 ^ 277 : ℕ) : ℤ) < a.units := by
  have := representable_lt _ (units_representable a)
  omega

theorem neg_units (a : float) : a.neg.units = -a.units := by
  cases a with
  | nan => rfl
  | inf s => rfl
  | finite s m e => cases s <;> simp [float.neg, float.units]

/-- For a margin that compares 0 <= margin, the float sum setpoint + margin is a NaN or
compares setpoint <= sum. -/
theorem add_key_ge (sp m : float) (hm : float.zero.le m = true) (x : ℤ)
    (hx : (sp.add m).key = some x) : ∃ y, sp.key = some y ∧ y ≤ x := by
  cases m with
  | nan => exact absurd hm (by decide)
  | inf t =>
    cases t with
    | true =>
      obtain ⟨x0, y0, h0, h1, h2⟩ := (le_iff _ _).mp hm
      have e0 : x0 = 0 := (Option.some.inj (show some (0 : ℤ) = some x0 from h0)).symm
      have e1 : y0 = -((2 ^ 277 : ℕ) : ℤ) :=
        (Option.some.inj (show some (-((2 ^ 277 : ℕ) : ℤ)) = some y0 from h1)).symm
      have : (0 : ℤ) < ((2 ^ 277 : ℕ) : ℤ) := by positivity
      omega
    | false =>
      cases sp with
      | nan => exact absurd (show (none : Option ℤ) = some x from hx) (by simp)
      | inf s =>
        cases s with
        | true => exact absurd (show (none : Option ℤ) = some x from hx) (by simp)
        | false => exact ⟨x, hx, le_rfl⟩
      | finite s m1 e1 =>
        refine ⟨(float.finite s m1 e1).units, rfl, ?_⟩
        have h1 : x = ((2 ^ 277 : ℕ) : ℤ) := by
          have : (float.inf false).key = some x := hx
          exact (Option.some.inj this).symm
        rw [h1]
        exact le_of_lt (units_lt _).1
  | finite t m2 e2 =>
    have hb : 0 ≤ (float.finite t m2 e2).units := by
      obtain ⟨x0, y0, h0, h1, h2⟩ := (le_iff _ _).mp hm
      have e0 : x0 = 0 := (Option.some.inj (show some (0 : ℤ) = some x0 from h0)).symm
      have e1 : y0 = (float.finite t m2 e2).units :=
        (Option.some.inj (show some (float.finite t m2 e2).units = some y0 from h1)).symm
      omega
    cases sp with
    | nan => exact absurd (show (none : Option ℤ) = some x from hx) (by simp)
    | inf s => exact ⟨x, hx, le_rfl⟩
    | finite s m1 e1 =>
      refine ⟨(float.finite s m1 e1).units, rfl, ?_⟩
      obtain ⟨K, hK, hdown, _⟩ := round_int_key (s && t)
        ((float.finite s m1 e1).units + (float.finite t m2 e2).units)
      have hx1 : (round_int (s && t)
          ((float.finite s m1 e1).units + (float.finite t m2 e2).units)).key = some x := hx
      rw [hK] at hx1
      rw [← Option.some.inj hx1]
      exact hdown _ (units_representable _) (by omega)

/-- For a margin that compares 0 <= margin, the float difference setpoint - margin is a NaN or
compares difference <= setpoint. -/
theorem sub_key_le (sp m : float) (hm : float.zero.le m = true) (x : ℤ)
    (hx : (sp.sub m).key = some x) : ∃ y, sp.key = some y ∧ x ≤ y := by
  cases m with
  | nan => exact absurd hm (by decide)
  | inf t =>
    cases t with
    | true =>
      obtain ⟨x0, y0, h0, h1, h2⟩ := (le_iff _ _).mp hm
      have e0 : x0 = 0 := (Option.some.inj (show some (0 : ℤ) = some x0 from h0)).symm
      have e1 : y0 = -((2 ^ 277 : ℕ) : ℤ) :=
        (Option.some.inj (show some (-((2 ^ 277 : ℕ) : ℤ)) = some y0 from h1)).symm
      have : (0 : ℤ) < ((2 ^ 277 : ℕ) : ℤ) := by positivity
      omega
    | false =>
      cases sp with
      | nan => exact absurd (show (none : Option ℤ) = some x from hx) (by simp)
      | inf s =>
        cases s with
        | true => exact ⟨x, hx, le_rfl⟩
        | false => exact absurd (show (none : Option ℤ) = some x from hx) (by simp)
      | finite s m1 e1 =>
        refine ⟨(float.finite s m1 e1).units, rfl, ?_⟩
        have h1 : x = -((2 ^ 277 : ℕ) : ℤ) := by
          have : (float.inf true).key = some x := hx
          exact (Option.some.inj this).symm
        rw [h1]
        exact le_of_lt (units_lt _).2
  | finite t m2 e2 =>
    have hb : 0 ≤ (float.finite t m2 e2).units := by
      obtain ⟨x0, y0, h0, h1, h2⟩ := (le_iff _ _).mp hm
      have e0 : x0 = 0 := (Option.some.inj (show some (0 : ℤ) = some x0 from h0)).symm
      have e1 : y0 = (float.finite t m2 e2).units :=
        (Option.some.inj (show some (float.finite t m2 e2).units = some y0 from h1)).symm
      omega
    cases sp with
    | nan => exact absurd (show (none : Option ℤ) = some x from hx) (by simp)
    | inf s => exact ⟨x, hx, le_rfl⟩
    | finite s m1 e1 =>
      refine ⟨(float.finite s m1 e1).units, rfl, ?_⟩
      obtain ⟨K, hK, _, hup⟩ := round_int_key (s && !t)
        ((float.finite s m1 e1).units + (float.finite (!t) m2 e2).units)
      have hx1 : (round_int (s && !t)
          ((float.finite s m1 e1).units + (float.finite (!t) m2 e2).units)).key = some x := hx
      rw [hK] at hx1
      rw [← Option.some.inj hx1]
      have hn : (float.finite (!t) m2 e2).units = -(float.finite t m2 e2).units :=
        neg_units (float.finite t m2 e2)
      exact hup _ (units_representable _) (by omega)


/-- With 0 <= margin, a sample above the float sum setpoint + margin compares
sample >= setpoint. -/
theorem gt_add_ge (t sp m : float) (hm : float.zero.le m = true)
    (h : t.gt (sp.add m) = true) : t.ge sp = true := by
  obtain ⟨xa, xt, ha, ht, hlt⟩ := (lt_iff _ _).mp h
  obtain ⟨y, hy, hle⟩ := add_key_ge sp m hm xa ha
  exact (le_iff _ _).mpr ⟨y, xt, hy, ht, by omega⟩

/-- With 0 <= margin, a sample below the float difference setpoint - margin compares
sample <= setpoint. -/
theorem lt_sub_le (t sp m : float) (hm : float.zero.le m = true)
    (h : t.lt (sp.sub m) = true) : t.le sp = true := by
  obtain ⟨xt, xb, ht, hb, hlt⟩ := (lt_iff _ _).mp h
  obtain ⟨y, hy, hle⟩ := sub_key_le sp m hm xb hb
  exact (le_iff _ _).mpr ⟨xt, y, ht, hy, by omega⟩

/-- With 0 <= margin, no sample is both above the float sum and below the float
difference. -/
theorem not_gt_add_and_lt_sub (t sp m : float) (hm : float.zero.le m = true) :
    ¬ (t.gt (sp.add m) = true ∧ t.lt (sp.sub m) = true) := by
  rintro ⟨h1, h2⟩
  have h3 := gt_add_ge t sp m hm h1
  have h4 := lt_sub_le t sp m hm h2
  obtain ⟨xb, xt, hb, ht, hlt⟩ := (lt_iff _ _).mp h1
  obtain ⟨xt1, xc, ht1, hc, hlt1⟩ := (lt_iff _ _).mp h2
  obtain ⟨y, hy, hle⟩ := add_key_ge sp m hm xb hb
  obtain ⟨y1, hy1, hle1⟩ := sub_key_le sp m hm xc hc
  rw [ht] at ht1
  rw [hy] at hy1
  have := Option.some.inj ht1
  have := Option.some.inj hy1
  omega

theorem key_of_not_nan (a : float) (h : a.is_nan = false) : ∃ x, a.key = some x := by
  cases a with
  | nan => exact absurd h (by decide)
  | inf s => cases s <;> exact ⟨_, rfl⟩
  | finite s m e => exact ⟨_, rfl⟩

/-- For operands that are not NaN, `a >= b` is false exactly when `a < b`. -/
theorem ge_false_iff_lt (a b : float) (ha : a.is_nan = false) (hb : b.is_nan = false) :
    a.ge b = false ↔ a.lt b = true := by
  obtain ⟨x, hx⟩ := key_of_not_nan a ha
  obtain ⟨y, hy⟩ := key_of_not_nan b hb
  simp [float.ge, float.le, float.lt, hx, hy]

/-- For operands that are not NaN, `a <= b` is false exactly when `a > b`. -/
theorem le_false_iff_gt (a b : float) (ha : a.is_nan = false) (hb : b.is_nan = false) :
    a.le b = false ↔ a.gt b = true := by
  obtain ⟨x, hx⟩ := key_of_not_nan a ha
  obtain ⟨y, hy⟩ := key_of_not_nan b hb
  simp [float.gt, float.le, float.lt, hx, hy]

theorem to_rat_lt (a b c : float) (h : a.units < b.units - c.units) :
    a.to_rat < b.to_rat - c.to_rat := by
  unfold float.to_rat
  rw [← sub_div]
  exact div_lt_div_of_pos_right (by exact_mod_cast h) (by positivity)

theorem to_rat_gt (a b c : float) (h : b.units + c.units < a.units) :
    a.to_rat > b.to_rat + c.to_rat := by
  unfold float.to_rat
  rw [← add_div]
  exact div_lt_div_of_pos_right (by exact_mod_cast h) (by positivity)

/-- For finite values, a sample below the float difference setpoint - margin is below the
exact difference. -/
theorem lt_sub_exact (t sp m : float) (ht : t.is_finite = true) (hsp : sp.is_finite = true)
    (hm : m.is_finite = true) (h : t.lt (sp.sub m) = true) :
    t.to_rat < sp.to_rat - m.to_rat := by
  apply to_rat_lt
  cases t with
  | nan => exact Bool.noConfusion (show false = true from ht)
  | inf s => exact Bool.noConfusion (show false = true from ht)
  | finite s0 m0 e0 =>
    cases sp with
    | nan => exact Bool.noConfusion (show false = true from hsp)
    | inf s => exact Bool.noConfusion (show false = true from hsp)
    | finite s1 m1 e1 =>
      cases m with
      | nan => exact Bool.noConfusion (show false = true from hm)
      | inf s => exact Bool.noConfusion (show false = true from hm)
      | finite s2 m2 e2 =>
        obtain ⟨x, y, hx, hy, hlt⟩ := (lt_iff _ _).mp h
        obtain ⟨K, hK, _, hup⟩ := round_int_key (s1 && !s2)
          ((float.finite s1 m1 e1).units + (float.finite (!s2) m2 e2).units)
        have hy1 : (round_int (s1 && !s2)
          ((float.finite s1 m1 e1).units + (float.finite (!s2) m2 e2).units)).key = some y := hy
        rw [hK] at hy1
        have hKy := Option.some.inj hy1
        have hx1 : x = (float.finite s0 m0 e0).units :=
          (Option.some.inj (show some (float.finite s0 m0 e0).units = some x from hx)).symm
        have hn : (float.finite (!s2) m2 e2).units = -(float.finite s2 m2 e2).units :=
          neg_units (float.finite s2 m2 e2)
        by_contra hc
        have := hup _ (units_representable (float.finite s0 m0 e0)) (by omega)
        omega

/-- For finite values, a sample above the float sum setpoint + margin is above the exact
sum. -/
theorem gt_add_exact (t sp m : float) (ht : t.is_finite = true) (hsp : sp.is_finite = true)
    (hm : m.is_finite = true) (h : t.gt (sp.add m) = true) :
    t.to_rat > sp.to_rat + m.to_rat := by
  apply to_rat_gt
  cases t with
  | nan => exact Bool.noConfusion (show false = true from ht)
  | inf s => exact Bool.noConfusion (show false = true from ht)
  | finite s0 m0 e0 =>
    cases sp with
    | nan => exact Bool.noConfusion (show false = true from hsp)
    | inf s => exact Bool.noConfusion (show false = true from hsp)
    | finite s1 m1 e1 =>
      cases m with
      | nan => exact Bool.noConfusion (show false = true from hm)
      | inf s => exact Bool.noConfusion (show false = true from hm)
      | finite s2 m2 e2 =>
        obtain ⟨y, x, hy, hx, hlt⟩ := (lt_iff _ _).mp h
        obtain ⟨K, hK, hdown, _⟩ := round_int_key (s1 && s2)
          ((float.finite s1 m1 e1).units + (float.finite s2 m2 e2).units)
        have hy1 : (round_int (s1 && s2)
          ((float.finite s1 m1 e1).units + (float.finite s2 m2 e2).units)).key = some y := hy
        rw [hK] at hy1
        have hKy := Option.some.inj hy1
        have hx1 : x = (float.finite s0 m0 e0).units :=
          (Option.some.inj (show some (float.finite s0 m0 e0).units = some x from hx)).symm
        by_contra hc
        have := hdown _ (units_representable (float.finite s0 m0 e0)) (by omega)
        omega

namespace Thermostat_API

/-- Status written by a tick with a valid sample, as a function of the members read. -/
theorem tick_status_of_valid_float (s : Thermostat_API) (hv : s.m_is_temp_valid = true) :
    s.therm_controller_tick.m_therm_status =
      spec_rules_float s.m_therm_mode s.m_therm_status s.m_temp_setpoint s.m_temp_margin
        s.m_temp := by
  obtain ⟨mode, status, port, temp, margin, setpoint, valid, err⟩ := s
  subst hv
  cases mode <;> cases status <;>
    simp [therm_controller_tick, spec_rules_float, get_temp, get_therm_mode, get_therm_status,
      get_temp_setpoint, get_temp_margin, start_heating, stop_heating, start_cooling,
      stop_cooling] <;>
    split_ifs <;> simp_all


/-- C1, counterexample: in Cool mode with setpoint 16777216, margin 3, valid sample 16777220
and status Inactive the tick leaves the status Inactive, while the rule list on the exact
values gives Cooling (16777220 > 16777216 + 3): the float sum rounds to 16777220. -/
theorem rounding_breaks_rule_list :
    rounding_cool_large.m_is_temp_valid = true ∧
      (rounding_cool_large.m_temp_setpoint.to_rat = 16777216 ∧
        rounding_cool_large.m_temp_margin.to_rat = 3 ∧
        rounding_cool_large.m_temp.to_rat = 16777220) ∧
      rounding_cool_large.therm_controller_tick.get_therm_status = therm_status_inactive ∧
      Thermostat_API.spec_rules rounding_cool_large.get_therm_mode
        rounding_cool_large.get_therm_status rounding_cool_large.m_temp_setpoint.to_rat
        rounding_cool_large.m_temp_margin.to_rat rounding_cool_large.m_temp.to_rat
        = therm_status_cooling := by
  have h1 : rounding_cool_large.m_temp_setpoint.to_rat = 16777216 := by
    norm_num [rounding_cool_large, with_sample, temp_UDP_listener_recv, set_temp_margin,
      set_temp_setpoint, set_therm_mode, float.to_rat, float.units, f32]
  have h2 : rounding_cool_large.m_temp_margin.to_rat = 3 := by
    norm_num [rounding_cool_large, with_sample, temp_UDP_listener_recv, set_temp_margin,
      set_temp_setpoint, set_therm_mode, float.to_rat, float.units, f32]
  have h3 : rounding_cool_large.m_temp.to_rat = 16777220 := by
    norm_num [rounding_cool_large, with_sample, temp_UDP_listener_recv, set_temp_margin,
      set_temp_setpoint, set_therm_mode, float.to_rat, float.units, f32]
  refine ⟨rfl, ⟨h1, h2, h3⟩, by decide, ?_⟩
  rw [h1, h2, h3]
  have hm : rounding_cool_large.get_therm_mode = therm_mode_cool := rfl
  have hs : rounding_cool_large.get_therm_status = therm_status_inactive := rfl
  rw [hm, hs]
  have hn : (16777220 : ℚ) > 16777216 + 3 := by norm_num
  simp [Thermostat_API.spec_rules, hn]

/-- C1, amended: with a valid sample (any binary32 value, NaN included), the status after one
tick is the one the rule list prescribes when setpoint + margin and setpoint - margin are the
float sum and difference and the comparisons are the float comparisons. -/
theorem tick_status_eq_spec_rules_float (s : Thermostat_API)
    (hv : s.m_is_temp_valid = true) :
    s.therm_controller_tick.get_therm_status =
      spec_rules_float s.get_therm_mode s.get_therm_status s.get_temp_setpoint
        s.get_temp_margin s.m_temp :=
  tick_status_of_valid_float s hv

/-- Witness of the amended C1 at the rounding input: the float rule list gives Inactive. -/
theorem tick_status_eq_spec_rules_float_witness :
    rounding_cool_large.m_is_temp_valid = true ∧
      rounding_cool_large.therm_controller_tick.get_therm_status =
        spec_rules_float rounding_cool_large.get_therm_mode
          rounding_cool_large.get_therm_status rounding_cool_large.get_temp_setpoint
          rounding_cool_large.get_temp_margin rounding_cool_large.m_temp ∧
      spec_rules_float rounding_cool_large.get_therm_mode
          rounding_cool_large.get_therm_status rounding_cool_large.get_temp_setpoint
          rounding_cool_large.get_temp_margin rounding_cool_large.m_temp
        = therm_status_inactive :=
  ⟨rfl, tick_status_eq_spec_rules_float rounding_cool_large rfl, by decide⟩


/-- C2, counterexample: Heat mode, setpoint 60, margin 0.2f, valid sample 59.8f, status
Inactive. The sample is below the exact difference 60 - 0.2f, yet the status after the tick
is not Heating: the float difference rounds to 59.8f. -/
theorem rounding_breaks_heating_start :
    (rounding_heat.m_is_temp_valid = true ∧
      rounding_heat.m_therm_mode = therm_mode_heat ∧
      float.zero.le rounding_heat.m_temp_margin = true ∧
      rounding_heat.m_therm_status ≠ therm_status_heating) ∧
    rounding_heat.m_temp.to_rat <
      rounding_heat.m_temp_setpoint.to_rat - rounding_heat.m_temp_margin.to_rat ∧
    rounding_heat.therm_controller_tick.get_therm_status ≠ therm_status_heating := by
  refine ⟨⟨rfl, rfl, by decide, by decide⟩, ?_, by decide⟩
  norm_num [rounding_heat, with_sample, temp_UDP_listener_recv, set_temp_margin,
    set_temp_setpoint, set_therm_mode, float.to_rat, float.units, f32]

/-- C2, amended: with a valid sample, mode Heat or Auto, a margin with 0 <= margin and a
status other than Heating, the status after one tick is Heating exactly when the sample is
below the float difference setpoint - margin; when sample, setpoint and margin are finite,
Heating after the tick implies that the sample is below the exact difference. -/
theorem tick_heating_iff_float (s : Thermostat_API) (hv : s.m_is_temp_valid = true)
    (hm : s.m_therm_mode = therm_mode_heat ∨ s.m_therm_mode = therm_mode_auto)
    (hmargin : float.zero.le s.m_temp_margin = true)
    (hs : s.m_therm_status ≠ therm_status_heating) :
    (s.therm_controller_tick.get_therm_status = therm_status_heating ↔
      s.m_temp.lt (s.m_temp_setpoint.sub s.m_temp_margin) = true) ∧
    (s.m_temp.is_finite = true → s.m_temp_setpoint.is_finite = true →
      s.m_temp_margin.is_finite = true →
      s.therm_controller_tick.get_therm_status = therm_status_heating →
      s.m_temp.to_rat < s.m_temp_setpoint.to_rat - s.m_temp_margin.to_rat) := by
  have hex := not_gt_add_and_lt_sub s.m_temp s.m_temp_setpoint s.m_temp_margin hmargin
  have hiff : s.therm_controller_tick.get_therm_status = therm_status_heating ↔
      s.m_temp.lt (s.m_temp_setpoint.sub s.m_temp_margin) = true := by
    show s.therm_controller_tick.m_therm_status = therm_status_heating ↔ _
    rw [tick_status_of_valid_float s hv]
    unfold spec_rules_float
    rcases hm with hm | hm <;> rw [hm] <;> split_ifs <;> simp_all
  exact ⟨hiff, fun ht hsp hmg h =>
    lt_sub_exact _ _ _ ht hsp hmg (hiff.mp h)⟩

/-- Witness of the amended C2: at setpoint 70, margin 2 the sample 68 = setpoint - margin does
not start heating. -/
theorem tick_heating_iff_float_witness :
    (heat_boundary_float.m_is_temp_valid = true ∧
      heat_boundary_float.m_therm_mode = therm_mode_heat ∧
      float.zero.le heat_boundary_float.m_temp_margin = true ∧
      heat_boundary_float.m_therm_status ≠ therm_status_heating) ∧
    heat_boundary_float.m_temp.lt
      (heat_boundary_float.m_temp_setpoint.sub heat_boundary_float.m_temp_margin)
        = false ∧
    heat_boundary_float.therm_controller_tick.get_therm_status ≠ therm_status_heating := by
  have hlt : heat_boundary_float.m_temp.lt
      (heat_boundary_float.m_temp_setpoint.sub heat_boundary_float.m_temp_margin)
        = false := by decide
  refine ⟨⟨rfl, rfl, by decide, by decide⟩, hlt, fun h => ?_⟩
  have h1 := (tick_heating_iff_float heat_boundary_float rfl (Or.inl rfl) (by decide)
    (by decide)).1.mp h
  rw [hlt] at h1
  exact Bool.noConfusion h1

/-- C3, counterexample: Heat mode, setpoint 70, margin 2, status Heating, and the valid sample
is a NaN. The status after the tick is still Heating although sample < setpoint is false. -/
theorem nan_keeps_heating :
    (nan_while_heating.m_is_temp_valid = true ∧
      nan_while_heating.m_therm_mode = therm_mode_heat ∧
      float.zero.le nan_while_heating.m_temp_margin = true ∧
      nan_while_heating.m_therm_status = therm_status_heating) ∧
    nan_while_heating.m_temp = float.nan ∧
    nan_while_heating.therm_controller_tick.get_therm_status = therm_status_heating ∧
    nan_while_heating.m_temp.lt nan_while_heating.m_temp_setpoint = false := by
  refine ⟨⟨rfl, rfl, by decide, by decide⟩, rfl, by decide, by decide⟩

/-- C3, amended: with a valid sample, mode Heat or Auto, a margin with 0 <= margin and status
Heating, the status after one tick is still Heating exactly when sample >= setpoint is false;
when neither the sample nor the setpoint is a NaN, exactly when sample < setpoint. -/
theorem tick_heating_kept_iff_float (s : Thermostat_API) (hv : s.m_is_temp_valid = true)
    (hm : s.m_therm_mode = therm_mode_heat ∨ s.m_therm_mode = therm_mode_auto)
    (hmargin : float.zero.le s.m_temp_margin = true)
    (hs : s.m_therm_status = therm_status_heating) :
    (s.therm_controller_tick.get_therm_status = therm_status_heating ↔
      s.m_temp.ge s.m_temp_setpoint = false) ∧
    (s.m_temp.is_nan = false → s.m_temp_setpoint.is_nan = false →
      (s.therm_controller_tick.get_therm_status = therm_status_heating ↔
        s.m_temp.lt s.m_temp_setpoint = true)) := by
  have hge := gt_add_ge s.m_temp s.m_temp_setpoint s.m_temp_margin hmargin
  have hiff : s.therm_controller_tick.get_therm_status = therm_status_heating ↔
      s.m_temp.ge s.m_temp_setpoint = false := by
    show s.therm_controller_tick.m_therm_status = therm_status_heating ↔ _
    rw [tick_status_of_valid_float s hv]
    unfold spec_rules_float
    rcases hm with hm | hm <;> rw [hm, hs] <;> split_ifs <;> simp_all
  exact ⟨hiff, fun h1 h2 => hiff.trans (ge_false_iff_lt _ _ h1 h2)⟩

/-- Witness of the amended C3 at the setpoint itself: setpoint 70, sample 70, Heating stops. -/
theorem tick_heating_kept_iff_float_witness :
    (heating_at_setpoint_float.m_is_temp_valid = true ∧
      heating_at_setpoint_float.m_therm_mode = therm_mode_heat ∧
      float.zero.le heating_at_setpoint_float.m_temp_margin = true ∧
      heating_at_setpoint_float.m_therm_status = therm_status_heating) ∧
    heating_at_setpoint_float.m_temp.lt heating_at_setpoint_float.m_temp_setpoint = false ∧
    heating_at_setpoint_float.therm_controller_tick.get_therm_status ≠ therm_status_heating := by
  have hlt : heating_at_setpoint_float.m_temp.lt heating_at_setpoint_float.m_temp_setpoint
      = false := by decide
  have hst : heating_at_setpoint_float.m_therm_status = therm_status_heating := by decide
  refine ⟨⟨rfl, rfl, by decide, hst⟩, hlt, fun h => ?_⟩
  have h1 := ((tick_heating_kept_iff_float heating_at_setpoint_float rfl (Or.inl rfl) (by decide)
    hst).2 rfl rfl).mp h
  rw [hlt] at h1
  exact Bool.noConfusion h1

/-- C4, counterexample: Cool mode, setpoint 60, margin 0.2f, valid sample 60.2f, status
Inactive. The sample is above the exact sum 60 + 0.2f, yet the status after the tick is not
Cooling: the float sum rounds to 60.2f. -/
theorem rounding_breaks_cooling_start :
    (rounding_cool.m_is_temp_valid = true ∧
      rounding_cool.m_therm_mode = therm_mode_cool ∧
      rounding_cool.m_therm_status ≠ therm_status_cooling) ∧
    rounding_cool.m_temp.to_rat >
      rounding_cool.m_temp_setpoint.to_rat + rounding_cool.m_temp_margin.to_rat ∧
    rounding_cool.therm_controller_tick.get_therm_status ≠ therm_status_cooling := by
  refine ⟨⟨rfl, rfl, by decide⟩, ?_, by decide⟩
  norm_num [rounding_cool, with_sample, temp_UDP_listener_recv, set_temp_margin,
    set_temp_setpoint, set_therm_mode, float.to_rat, float.units, f32]

/-- C4, amended: with a valid sample, mode Cool or Auto and a status other than Cooling
(Inactive or Heating), the status after one tick is Cooling exactly when the sample is above
the float sum setpoint + margin; when sample, setpoint and margin are finite, Cooling after
the tick implies that the sample is above the exact sum. -/
theorem tick_cooling_iff_float (s : Thermostat_API) (hv : s.m_is_temp_valid = true)
    (hm : s.m_therm_mode = therm_mode_cool ∨ s.m_therm_mode = therm_mode_auto)
    (hs : s.m_therm_status ≠ therm_status_cooling) :
    (s.therm_controller_tick.get_therm_status = therm_status_cooling ↔
      s.m_temp.gt (s.m_temp_setpoint.add s.m_temp_margin) = true) ∧
    (s.m_temp.is_finite = true → s.m_temp_setpoint.is_finite = true →
      s.m_temp_margin.is_finite = true →
      s.therm_controller_tick.get_therm_status = therm_status_cooling →
      s.m_temp.to_rat > s.m_temp_setpoint.to_rat + s.m_temp_margin.to_rat) := by
  have hiff : s.therm_controller_tick.get_therm_status = therm_status_cooling ↔
      s.m_temp.gt (s.m_temp_setpoint.add s.m_temp_margin) = true := by
    show s.therm_controller_tick.m_therm_status = therm_status_cooling ↔ _
    rw [tick_status_of_valid_float s hv]
    unfold spec_rules_float
    rcases hm with hm | hm <;> rw [hm] <;> split_ifs <;> simp_all
  exact ⟨hiff, fun ht hsp hmg h =>
    gt_add_exact _ _ _ ht hsp hmg (hiff.mp h)⟩

/-- Witness of the amended C4 at the scenario setpoint 60, margin 1, Auto, Heating, sample 69:
the status goes from Heating to Cooling in one tick. -/
theorem tick_cooling_iff_float_witness :
    (auto_heating_hot_float.m_is_temp_valid = true ∧
      auto_heating_hot_float.m_therm_mode = therm_mode_auto ∧
      auto_heating_hot_float.m_therm_status = therm_status_heating) ∧
    auto_heating_hot_float.therm_controller_tick.get_therm_status = therm_status_cooling := by
  have hst : auto_heating_hot_float.m_therm_status = therm_status_heating := by decide
  exact ⟨⟨rfl, rfl, hst⟩,
    (tick_cooling_iff_float auto_heating_hot_float rfl (Or.inr rfl)
      (by rw [hst]; decide)).1.mpr (by decide)⟩

/-- C5, counterexample: Cool mode, setpoint 70, margin 2, status Cooling, and the valid sample
is a NaN. The status after the tick is still Cooling although sample > setpoint is false. -/
theorem nan_keeps_cooling :
    (nan_while_cooling.m_is_temp_valid = true ∧
      nan_while_cooling.m_therm_mode = therm_mode_cool ∧
      float.zero.le nan_while_cooling.m_temp_margin = true ∧
      nan_while_cooling.m_therm_status = therm_status_cooling) ∧
    nan_while_cooling.m_temp = float.nan ∧
    nan_while_cooling.therm_controller_tick.get_therm_status = therm_status_cooling ∧
    nan_while_cooling.m_temp.gt nan_while_cooling.m_temp_setpoint = false := by
  refine ⟨⟨rfl, rfl, by decide, by decide⟩, rfl, by decide, by decide⟩

/-- C5, amended: with a valid sample, mode Cool or Auto, a margin with 0 <= margin and status
Cooling, the status after one tick is still Cooling exactly when sample <= setpoint is false;
when neither the sample nor the setpoint is a NaN, exactly when sample > setpoint. -/
theorem tick_cooling_kept_iff_float (s : Thermostat_API) (hv : s.m_is_temp_valid = true)
    (hm : s.m_therm_mode = therm_mode_cool ∨ s.m_therm_mode = therm_mode_auto)
    (hmargin : float.zero.le s.m_temp_margin = true)
    (hs : s.m_therm_status = therm_status_cooling) :
    (s.therm_controller_tick.get_therm_status = therm_status_cooling ↔
      s.m_temp.le s.m_temp_setpoint = false) ∧
    (s.m_temp.is_nan = false → s.m_temp_setpoint.is_nan = false →
      (s.therm_controller_tick.get_therm_status = therm_status_cooling ↔
        s.m_temp.gt s.m_temp_setpoint = true)) := by
  have hle := lt_sub_le s.m_temp s.m_temp_setpoint s.m_temp_margin hmargin
  have hiff : s.therm_controller_tick.get_therm_status = therm_status_cooling ↔
      s.m_temp.le s.m_temp_setpoint = false := by
    show s.therm_controller_tick.m_therm_status = therm_status_cooling ↔ _
    rw [tick_status_of_valid_float s hv]
    unfold spec_rules_float
    rcases hm with hm | hm <;> rw [hm, hs] <;> split_ifs <;> simp_all
  exact ⟨hiff, fun h1 h2 => hiff.trans (le_false_iff_gt _ _ h1 h2)⟩

/-- Witness of the amended C5 inside the band: setpoint 70, margin 2, sample 71, Cooling
continues. -/
theorem tick_cooling_kept_iff_float_witness :
    (cooling_in_band_float.m_is_temp_valid = true ∧
      cooling_in_band_float.m_therm_mode = therm_mode_cool ∧
      float.zero.le cooling_in_band_float.m_temp_margin = true ∧
      cooling_in_band_float.m_therm_status = therm_status_cooling) ∧
    cooling_in_band_float.therm_controller_tick.get_therm_status = therm_status_cooling := by
  have hst : cooling_in_band_float.m_therm_status = therm_status_cooling := by decide
  exact ⟨⟨rfl, rfl, by decide, hst⟩,
    ((tick_cooling_kept_iff_float cooling_in_band_float rfl (Or.inl rfl) (by decide) hst).2
      rfl rfl).mpr (by decide)⟩

end Thermostat_API

end binary32
